import Mathlib

/-!
Verification of the interbtc-squid event-normalization and aggregation core.

The definitions below are a shallow embedding of the TypeScript sources:
* `src/mappings/utils/pools.ts` — asset ordering, stable-pool membership cache,
  swap-entity construction;
* the loans/dex event handlers (`loans.ts` / `dex.ts`);
* the encoding module (`encoding.ts`) — currency-id encoders.

External collaborators (generated substrate type accessors, the entity buffer,
storage readers, formatting helpers) are passed in as explicit environment
records; everything that lives in the repository's own source files is
translated directly.
-/

namespace Interbtc

/-- The native token enum of the model layer (members observed in
`indexToNativeTokenMap` and the encoders). -/
inductive Token where
  | DOT
  | IBTC
  | INTR
  | KSM
  | KBTC
  | KINT
deriving DecidableEq, Repr

/-- Printed name of a native token (JS `Token.DOT.toString()` etc.). -/
def tokenToString : Token → String
  | .DOT => "DOT"
  | .IBTC => "IBTC"
  | .INTR => "INTR"
  | .KSM => "KSM"
  | .KBTC => "KBTC"
  | .KINT => "KINT"

/-- The tagged-variant `Currency` union of the model layer:
`NativeToken | ForeignAsset | LendToken | LpTokenPair | StableLpToken`. -/
inductive Currency where
  | NativeToken (token : Token)
  | ForeignAsset (asset : Nat)
  | LendToken (lendTokenId : Nat)
  | LpTokenPair (token0 token1 : Currency)
  | StableLpToken (poolId : Nat)
deriving DecidableEq, Repr

/-- The `isTypeOf` discriminant string carried by every model `Currency` value. -/
def isTypeOf : Currency → String
  | .NativeToken _ => "NativeToken"
  | .ForeignAsset _ => "ForeignAsset"
  | .LendToken _ => "LendToken"
  | .LpTokenPair _ _ => "LpTokenPair"
  | .StableLpToken _ => "StableLpToken"

/-- `invertMap` from `mappings/_utils`: swap keys and values of an association map. -/
def invertMap (m : List (α × β)) : List (β × α) :=
  m.map fun p => (p.2, p.1)

/-- `indexToCurrencyTypeMap` (pools.ts lines 14-20): enum-discriminant rank of each
currency variant, replicated from the parachain. -/
def indexToCurrencyTypeMap : List (Nat × String) :=
  [(0, "NativeToken"), (1, "ForeignAsset"), (2, "LendToken"), (3, "LpToken"),
    (4, "StableLpToken")]

/-- `currencyTypeToIndexMap` (pools.ts line 21). -/
def currencyTypeToIndexMap : List (String × Nat) :=
  invertMap indexToCurrencyTypeMap

/-- `indexToNativeTokenMap` (pools.ts lines 25-32): fixed token order replicated from
the parachain. -/
def indexToNativeTokenMap : List (Nat × Token) :=
  [(0, .DOT), (1, .IBTC), (2, .INTR), (10, .KSM), (11, .KBTC), (12, .KINT)]

/-- `nativeTokenToIndexMap` (pools.ts line 34). -/
def nativeTokenToIndexMap : List (Token × Nat) :=
  invertMap indexToNativeTokenMap

/-- `compareCurrencyType` (pools.ts lines 101-117). Returns the difference of the
variant-type ranks; a thrown `Error` is modelled as `Except.error` with the same
message. -/
def compareCurrencyType (currency0 currency1 : Currency) : Except String Int :=
  if isTypeOf currency0 = isTypeOf currency1 then .ok 0
  else
    match currencyTypeToIndexMap.lookup (isTypeOf currency0) with
    | none =>
      .error ("Unable to find index for given currency type [" ++ isTypeOf currency0 ++ "]")
    | some typeIndex0 =>
      match currencyTypeToIndexMap.lookup (isTypeOf currency1) with
      | none =>
        .error ("Unable to find index for given currency type [" ++ isTypeOf currency1 ++ "]")
      | some typeIndex1 => .ok ((typeIndex0 : Int) - (typeIndex1 : Int))

/-- `currencyToIndex` (pools.ts lines 119-136): the variant-specific numeric index. -/
def currencyToIndex (currency : Currency) : Except String Int :=
  match currency with
  | .NativeToken t =>
    match nativeTokenToIndexMap.lookup t with
    | none =>
      .error ("currencyToIndex: Unknown or unhandled native token [" ++ tokenToString t ++ "]")
    | some tokenIdx => .ok (tokenIdx : Int)
  | .ForeignAsset asset => .ok (asset : Int)
  | .LendToken lendTokenId => .ok (lendTokenId : Int)
  | .StableLpToken poolId => .ok (poolId : Int)
  | other =>
    .error ("currencyToIndex:  Unknown or unsupported currency type [" ++ isTypeOf other ++ "]")

/-- `compareCurrencies` (pools.ts lines 146-155): rank difference first, then index
difference. -/
def compareCurrencies (currency0 currency1 : Currency) : Except String Int :=
  match compareCurrencyType currency0 currency1 with
  | .error e => .error e
  | .ok typeCompare =>
    if typeCompare ≠ 0 then .ok typeCompare
    else
      match currencyToIndex currency0 with
      | .error e => .error e
      | .ok index0 =>
        match currencyToIndex currency1 with
        | .error e => .error e
        | .ok index1 => .ok (index0 - index1)

/-- `orderCurrencies` (pools.ts lines 169-175). -/
def orderCurrencies (currency0 currency1 : Currency) : Except String (Currency × Currency) :=
  match compareCurrencies currency0 currency1 with
  | .error e => .error e
  | .ok v => if v > 0 then .ok (currency1, currency0) else .ok (currency0, currency1)

/-- `currencyToString` (encoding.ts lines 122-141), the canonical string key. -/
def currencyToString : Currency → String
  | .LendToken lendTokenId => "lendToken_" ++ toString lendTokenId
  | .ForeignAsset asset => toString asset
  | .NativeToken t => tokenToString t
  | .StableLpToken poolId => "poolId_" ++ toString poolId
  | .LpTokenPair token0 token1 =>
    "lpToken__" ++ currencyToString token0 ++ "__" ++ currencyToString token1

/-- `inferGeneralPoolId` (pools.ts lines 184-191): the `"(lo,hi)"` standard-pool key. -/
def inferGeneralPoolId (currency0 currency1 : Currency) : Except String String :=
  match orderCurrencies currency0 currency1 with
  | .error e => .error e
  | .ok (first, second) =>
    .ok ("(" ++ currencyToString first ++ "," ++ currencyToString second ++ ")")

/-- The four currency variants on which `compareCurrencies` is total: the
`LpTokenPair` variant is absent from both `currencyTypeToIndexMap` (whose key for
it is the parachain name "LpToken", not the model's discriminant "LpTokenPair")
and from the `currencyToIndex` switch. -/
def isSupportedCurrency : Currency → Bool
  | .LpTokenPair _ _ => false
  | _ => true

/-- The fixed token index of `indexToNativeTokenMap`, as a total function. -/
def tokenIndex : Token → Int
  | .DOT => 0
  | .IBTC => 1
  | .INTR => 2
  | .KSM => 10
  | .KBTC => 11
  | .KINT => 12

/-! ### Raw chain currency ids and encoders (encoding.ts) -/

/-- The `LpToken` union of the v1021000 chain types, as consumed by
`lpTokenId.encode` (encoding.ts lines 67-86). -/
inductive LpTokenRaw where
  | Token (token : Token)
  | ForeignAsset (asset : Nat)
  | StableLpToken (poolId : Nat)
deriving DecidableEq, Repr

/-- The raw `CurrencyId` union of the v1020000/v1021000 chain types, as consumed
by `currencyId.encode` (encoding.ts lines 88-116). -/
inductive CurrencyId where
  | Token (token : Token)
  | ForeignAsset (asset : Nat)
  | LendToken (value : Nat)
  | LpToken (token0 token1 : LpTokenRaw)
  | StableLpToken (poolId : Nat)
deriving DecidableEq, Repr

/-- `lpTokenId.encode` (encoding.ts lines 67-86). -/
def lpTokenIdEncode : LpTokenRaw → Currency
  | .StableLpToken poolId => .StableLpToken poolId
  | .ForeignAsset asset => .ForeignAsset asset
  | .Token t => .NativeToken t

/-- `currencyId.encode` (encoding.ts lines 88-116). -/
def currencyIdEncode : CurrencyId → Currency
  | .LendToken value => .LendToken value
  | .ForeignAsset asset => .ForeignAsset asset
  | .Token t => .NativeToken t
  | .StableLpToken poolId => lpTokenIdEncode (.StableLpToken poolId)
  | .LpToken t0 t1 => .LpTokenPair (lpTokenIdEncode t0) (lpTokenIdEncode t1)

/-- Token kinds of the legacy (v6/v10/v15) `CurrencyId_Token` chain types: the six
current tokens plus the pre-rename name INTERBTC. -/
inductive LegacyTokenKind where
  | DOT
  | INTERBTC
  | IBTC
  | INTR
  | KSM
  | KBTC
  | KINT
deriving DecidableEq, Repr

/-- The rename step of `legacyCurrencyId.encode` (encoding.ts lines 52-60): a legacy
value whose kind is INTERBTC is rewritten to kind IBTC before the token lookup. -/
def legacyNormalize (t : LegacyTokenKind) : LegacyTokenKind :=
  if t = .INTERBTC then .IBTC else t

/-- The JS `Token[kind]` enum lookup used by `legacyCurrencyId.encode`
(encoding.ts line 62): `none` models the JS `undefined` for a kind that is not a
member of the current `Token` enum. -/
def legacyTokenLookup : LegacyTokenKind → Option Token
  | .DOT => some .DOT
  | .IBTC => some .IBTC
  | .INTR => some .INTR
  | .KSM => some .KSM
  | .KBTC => some .KBTC
  | .KINT => some .KINT
  | .INTERBTC => none

/-- `legacyCurrencyId.encode` (encoding.ts lines 48-65): normalize the renamed
token, then wrap the looked-up token in a `NativeToken`. The `none` branch is
unreachable because normalization maps INTERBTC to IBTC; it is kept total with the
IBTC default. -/
def legacyCurrencyIdEncode (t : LegacyTokenKind) : Currency :=
  match legacyTokenLookup (legacyNormalize t) with
  | some tok => .NativeToken tok
  | none => .NativeToken .IBTC

/-! ### Exchange-rate lookback cache (`BlockRates`, loans.ts lines 67-91) -/

/-- One exchange-rate sample `{block, symbol, rate}`. JS float rates are modelled
as exact rationals; the lookback logic never computes with the rate. -/
structure Rate where
  block : Nat
  symbol : String
  rate : ℚ
deriving DecidableEq, Repr

/-- `BlockRates.addRate`: append one sample to the log. -/
def addRate (rates : List Rate) (block : Nat) (symbol : String) (rate : ℚ) : List Rate :=
  rates ++ [{ block := block, symbol := symbol, rate := rate }]

/-- The backward scan of `BlockRates.getRate` (loans.ts lines 81-87), expressed on
the reversed sample list: return the first sample whose symbol matches and whose
height is at or below the queried height. -/
def getRateScan (block : Nat) (symbol : String) : List Rate → Option Rate
  | [] => none
  | r :: rest =>
    if r.symbol = symbol ∧ r.block ≤ block then some r else getRateScan block symbol rest

/-- `BlockRates.getRate` (loans.ts lines 80-91). The boolean records whether the
diagnostic "Returning default rate" note was logged, which happens exactly when the
fixed fallback rate 0.02 is returned. -/
def getRate (rates : List Rate) (block : Nat) (symbol : String) : Rate × Bool :=
  match getRateScan block symbol rates.reverse with
  | some r => (r, false)
  | none => ({ block := block, symbol := symbol, rate := 1 / 50 }, true)

/-! ### Stable-pool membership cache (pools.ts lines 36-99) -/

/-- The `DexStable.Pools` storage value: `Base` and `Meta` pools carry their member
currency-id lists (`pool.value.currencyIds` resp. `pool.value.info.currencyIds`);
`Other` stands for any future unrecognized pool shape with its `__kind` string. -/
inductive Pool where
  | Base (currencyIds : List CurrencyId)
  | Meta (infoCurrencyIds : List CurrencyId)
  | Other (kind : String)
deriving DecidableEq, Repr

/-- Member currency ids of a recognized pool shape (the `isBasePool` / `isMetaPool`
branches of pools.ts lines 78-87); `none` for an unrecognized shape. -/
def poolCurrencyIdsOf : Pool → Option (List CurrencyId)
  | .Base ids => some ids
  | .Meta ids => some ids
  | .Other _ => none

/-- The `__kind` discriminant of a pool value. -/
def poolKind : Pool → String
  | .Base _ => "Base"
  | .Meta _ => "Meta"
  | .Other k => k

/-- The `stablePoolCurrenciesCache` map, pool id → list of (encoded currency, raw
currency id) pairs, modelled as an association list where an insert shadows older
entries. -/
abbrev PoolCache := List (Nat × List (Currency × CurrencyId))

/-- `Map.get` on the cache. -/
def cacheGet (cache : PoolCache) (poolId : Nat) : Option (List (Currency × CurrencyId)) :=
  cache.lookup poolId

/-- `setPoolCurrencies` (pools.ts lines 39-41): `Map.set`, modelled by shadowing. -/
def cacheSet (cache : PoolCache) (poolId : Nat) (currencies : List (Currency × CurrencyId)) :
    PoolCache :=
  (poolId, currencies) :: cache

/-- The `DexStablePoolsStorage` collaborator (generated storage accessor): the
existence and version flags plus the pool-id keyed snapshot returned by
`getAsV1021000`. -/
structure StableStorageEnv where
  isExists : Bool
  isV1021000 : Bool
  pools : Nat → Option Pool

/-- Result of one `getStablePoolCurrencyByIndex` call: the returned pair or the
thrown error message, the cache state after the call, and how many authoritative
storage fetches (`getAsV1021000`) were performed. -/
structure StableLookupResult where
  result : Except String (Currency × CurrencyId)
  cache : PoolCache
  storageFetches : Nat
deriving Repr

/-- The storage-fetch path of `getStablePoolCurrencyByIndex` (pools.ts lines
68-98), reached when the cache cannot answer. -/
def stableFetch (senv : StableStorageEnv) (cache : PoolCache) (poolId index : Nat) :
    StableLookupResult :=
  if senv.isExists = false then
    { result := .error
        "getStablePoolCurrencyByIndex: DexStable.Pools storage is not defined for this spec version",
      cache := cache, storageFetches := 0 }
  else if senv.isV1021000 = true then
    match senv.pools poolId with
    | none =>
      { result := .error ("getStablePoolCurrencyByIndex: Unable to find stable pool in storage for given poolId [" ++ toString poolId ++ "]"),
        cache := cache, storageFetches := 1 }
    | some pool =>
      match poolCurrencyIdsOf pool with
      | none =>
        { result := .error ("getStablePoolCurrencyByIndex: Found pool for given poolId [" ++ toString poolId ++ "], but it is an unexpected pool type [" ++ poolKind pool ++ "]"),
          cache := cache, storageFetches := 1 }
      | some ids =>
        let currencies := ids.map fun cid => (currencyIdEncode cid, cid)
        let cache1 := cacheSet cache poolId currencies
        if h : index < currencies.length then
          { result := .ok (currencies.get ⟨index, h⟩), cache := cache1, storageFetches := 1 }
        else
          { result := .error ("getStablePoolCurrencyByIndex: Unable to find currency in DexStablePoolsStorage for given poolId [" ++ toString poolId ++ "] and currency index [" ++ toString index ++ "]"),
            cache := cache1, storageFetches := 1 }
  else
    { result := .error "getStablePoolCurrencyByIndex: Unknown DexStablePoolsStorage version",
      cache := cache, storageFetches := 0 }

/-- `getStablePoolCurrencyByIndex` (pools.ts lines 55-99): answer from the cache
when the index is in range, otherwise fetch the authoritative pool snapshot once,
repopulate the cache and retry the index before failing. -/
def getStablePoolCurrencyByIndex (senv : StableStorageEnv) (cache : PoolCache)
    (poolId index : Nat) : StableLookupResult :=
  match cacheGet cache poolId with
  | some currencies =>
    if h : index < currencies.length then
      { result := .ok (currencies.get ⟨index, h⟩), cache := cache, storageFetches := 0 }
    else stableFetch senv cache poolId index
  | none => stableFetch senv cache poolId index

/-! ### big.js arithmetic model (fee rounding in pools.ts lines 224-228) -/

/-- Number of decimal digits of a natural number. -/
def digitsLen (n : Nat) : Nat := (Nat.digits 10 n).length

/-- Round a nonnegative rational down to `sd` significant decimal digits: scale to
an integer approximation that preserves at least `sd` leading digits, truncate all
but the leading `sd` digits, and scale back. -/
def roundDownSigPos (x : ℚ) (sd : Nat) : ℚ :=
  let p := x.num.toNat
  let q := x.den
  let scale := digitsLen q + sd
  let m := p * 10 ^ scale / q
  let drop := digitsLen m - sd
  ((m / 10 ^ drop * 10 ^ drop : Nat) : ℚ) / ((10 ^ scale : Nat) : ℚ)

/-- big.js round-down (truncation toward zero) to `sd` significant digits. -/
def roundDownSig (x : ℚ) (sd : Nat) : ℚ :=
  if x < 0 then -roundDownSigPos (-x) sd else roundDownSigPos x sd

/-- `Big.prototype.toPrecision(sd, RoundDown)`: big.js requires `1 ≤ sd` and throws
`"[big.js] Invalid precision"` otherwise (big.js v6, which introduced both
`toPrecision` and the `RoundingMode` enum used by the source). Big values are
finite decimals, modelled as exact rationals. -/
def bigToPrecision (x : ℚ) (sd : Nat) : Except String ℚ :=
  if sd < 1 then .error "[big.js] Invalid precision"
  else .ok (roundDownSig x sd)

/-- The JS `BigInt(string)` conversion applied to the string produced by
`toPrecision` (pools.ts line 228), modelled on the exact rational value: integral
values convert, anything else throws. (The JS original would also throw on an
integral value printed in exponent form; that distinction is not modelled
because the preceding `toPrecision(0, ...)` call already throws.) -/
def rationalToBigInt (x : ℚ) : Except String Int :=
  if x.den = 1 then .ok x.num
  else .error "SyntaxError: Cannot convert string to a BigInt"

/-! ### Entities, environment and event handlers (loans.ts / dex.ts) -/

/-- Spec version tag for the v1020000 runtime. -/
def specV1020000 : Nat := 1020000

/-- Spec version tag for the v1021000 runtime. -/
def specV1021000 : Nat := 1021000

/-- The per-event data supplied by the block/event source: the stable event
identifier (`item.event.id`) and the runtime spec-version tag the raw event
carries. -/
structure EventItem where
  id : String
  specVersion : Nat
deriving DecidableEq, Repr

/-- The enclosing block: height and timestamp (ms). -/
structure Block where
  height : Nat
  timestamp : Nat
deriving DecidableEq, Repr

/-- Error message of the modelled generated accessor `asV...` (subsquid generated
`types/events.ts`, not part of the repository sources): calling it on an event of
a different spec version fails its internal assertion. -/
def assertionFailedMessage : String :=
  "Assertion failed: event is not of the expected spec version"

/-- Severity of a log line emitted while skipping an event. -/
inductive LogLevel where
  | warn
  | error
deriving DecidableEq, Repr

/-- A loan-market snapshot record (`LoanMarket` entity). Entity relations are
modelled by foreign-key ids. -/
structure LoanMarketRec where
  id : String
  token : Currency
  height : Nat
  timestamp : Nat
  borrowCap : Int
  supplyCap : Int
  rateModel : Nat
  closeFactor : Int
  lendTokenId : Option Nat
  state : String
  reserveFactor : Int
  collateralFactor : Int
  liquidateIncentive : Int
  liquidationThreshold : Int
  liquidateIncentiveReservedFactor : Int
  activationId : Option String := none
deriving DecidableEq, Repr

/-- A `LoanMarketActivation` record; the circular entity reference to its market is
modelled by the market id. -/
structure ActivationRec where
  id : String
  marketId : String
  token : Currency
  height : Nat
  timestamp : Nat
deriving DecidableEq, Repr

/-- A `Loan` record. -/
structure LoanRec where
  id : String
  height : Nat
  timestamp : Nat
  userParachainAddress : String
  token : Currency
  amountBorrowed : Option Int := none
  amountRepaid : Option Int := none
  comment : String
deriving DecidableEq, Repr

/-- A `Deposit` record. -/
structure DepositRec where
  id : String
  height : Nat
  timestamp : Nat
  userParachainAddress : String
  token : Currency
  amountDeposited : Option Int := none
  amountWithdrawn : Option Int := none
  comment : Option String
deriving DecidableEq, Repr

/-- An `InterestAccrual` record. -/
structure InterestAccrualRec where
  id : String
  height : Nat
  timestamp : Nat
  underlyingCurrency : Currency
  currencySymbol : String
  totalBorrows : Int
  totalReserves : Int
  borrowIndex : Int
  utilizationRatio : Int
  borrowRate : Int
  supplyRate : Int
  exchangeRate : Int
  exchangeRateFloat : ℚ
  comment : String
deriving DecidableEq, Repr

/-- One `entityBuffer.pushEntity` call made by a handler. The dex aggregate
entities are produced by `cumulativeVolumes.ts` (not among the repository's source
files), so only their entity name and an environment-supplied record id are
carried. -/
inductive PushRec where
  | loanMarket (rec : LoanMarketRec)
  | loanMarketActivation (rec : ActivationRec)
  | loan (rec : LoanRec)
  | deposit (rec : DepositRec)
  | interestAccrual (rec : InterestAccrualRec)
  | dexVolume (entity : String) (recId : Option String)
deriving DecidableEq, Repr

/-- Entity name under which a record is pushed to the buffer. -/
def pushEntityName : PushRec → String
  | .loanMarket _ => "LoanMarket"
  | .loanMarketActivation _ => "LoanMarketActivation"
  | .loan _ => "Loan"
  | .deposit _ => "Deposit"
  | .interestAccrual _ => "InterestAccrual"
  | .dexVolume entity _ => entity

/-- Outcome of one event-handler invocation: either the ordered list of records it
pushed, or an early return after a log line (a skipped event). A thrown exception
is the `Except.error` of the surrounding `Except`. -/
inductive HandlerOutcome where
  | processed (pushes : List PushRec)
  | skipped (level : LogLevel) (message : String)
deriving DecidableEq, Repr

/-- The out-of-scope collaborators used by the handlers (height bookkeeping, ss58
encoding, formatting and store helpers from `_utils`/`heights`/`markets`/
`cumulativeVolumes`, none of which are among the repository's source files),
passed in as plain functions. -/
structure Env where
  blockToHeight : Nat → Nat
  addressEncode : Nat → String
  getFirstAndLastFour : String → String
  friendlyAmount : Currency → ℚ → String
  formatNumber : ℚ → String
  symbolFromCurrency : Currency → String
  lendTokenDetails : Nat → Option Currency
  usdtRate : Nat → Currency → ℚ
  btcRate : Nat → Currency → ℚ
  rateModelEncode : Nat → Nat
  storeGetLoanMarket : String → Option LoanMarketRec
  standardPoolVolumeId : Option String
  stablePoolVolumeId : Option String
  totalVolumeId : Option String
  perAccountVolumeId : Option String
  totalTradeCountId : Option String
  perAccountTradeCountId : Option String

/-- Decoded payload of the loans events that carry (account, currency, amount):
Borrowed, DepositCollateral, WithdrawCollateral, Deposited, RepaidBorrow,
Redeemed. Both recognized versions decode to these fields. -/
structure LoanEventPayload where
  accountId : Nat
  currencyId : CurrencyId
  amount : Int
deriving Repr

/-- Raw market state discriminant of the chain `Market` type. -/
inductive RawMarketState where
  | Active
  | Pending
  | Supervision
deriving DecidableEq, Repr

/-- Raw chain `Market` value as decoded from NewMarket/UpdatedMarket events. -/
structure MarketRaw where
  lendTokenId : CurrencyId
  borrowCap : Int
  supplyCap : Int
  rateModel : Nat
  closeFactor : Int
  reserveFactor : Int
  collateralFactor : Int
  liquidateIncentive : Int
  liquidationThreshold : Int
  liquidateIncentiveReservedFactor : Int
  state : RawMarketState
deriving Repr

/-- Decoded payload of NewMarket/UpdatedMarket events. -/
structure MarketPayload where
  underlyingCurrencyId : CurrencyId
  market : MarketRaw
deriving Repr

/-- Decoded payload of the InterestAccrued event (v1021000 fields). -/
structure InterestAccruedPayload where
  underlyingCurrencyId : CurrencyId
  totalBorrows : Int
  totalReserves : Int
  borrowIndex : Int
  utilizationRatio : Int
  borrowRate : Int
  supplyRate : Int
  exchangeRate : Int
deriving Repr

/-- Decoded payload of the DexGeneral.AssetSwap event (v1021000 tuple
`[who, _, swapPath, balances]`). -/
structure DexGeneralPayload where
  who : Nat
  swapPath : List CurrencyId
  balances : List Int
deriving Repr

/-- Decoded payload of the DexStable.CurrencyExchange event (v1021000 fields). -/
structure DexStablePayload where
  poolId : Nat
  inIndex : Nat
  outIndex : Nat
  inAmount : Int
  outAmount : Int
  who : Nat
deriving Repr

/-- The unchecked `(market.lendTokenId as CurrencyId_LendToken).value` cast in the
market handlers: `none` models the JS `undefined` when the variant is not a
LendToken. -/
def lendTokenValue : CurrencyId → Option Nat
  | .LendToken value => some value
  | _ => none

/-- `newMarket` (loans.ts lines 138-189). Both recognized versions decode to the
same logical payload, so the two decode branches are collapsed; an unrecognized
version warns and returns. -/
def newMarket (env : Env) (block : Block) (item : EventItem) (p : MarketPayload) :
    Except String HandlerOutcome :=
  if item.specVersion = specV1020000 ∨ item.specVersion = specV1021000 then
    let currency := currencyIdEncode p.underlyingCurrencyId
    let id := currencyToString currency
    let irm := env.rateModelEncode p.market.rateModel
    let height := env.blockToHeight block.height
    .ok (.processed [.loanMarket {
      id := "loanMarket_" ++ id
      token := currency
      height := height
      timestamp := block.timestamp
      borrowCap := p.market.borrowCap
      supplyCap := p.market.supplyCap
      rateModel := irm
      closeFactor := p.market.closeFactor
      lendTokenId := lendTokenValue p.market.lendTokenId
      state := "Pending"
      reserveFactor := p.market.reserveFactor
      collateralFactor := p.market.collateralFactor
      liquidateIncentive := p.market.liquidateIncentive
      liquidationThreshold := p.market.liquidationThreshold
      liquidateIncentiveReservedFactor := p.market.liquidateIncentiveReservedFactor }])
  else .ok (.skipped .warn "UNKOWN EVENT VERSION: LoansNewMarketEvent")

/-- `updatedMarket` (loans.ts lines 192-250): like `newMarket`, but the state is
Supervision when the raw state is Supervision and Pending otherwise. -/
def updatedMarket (env : Env) (block : Block) (item : EventItem) (p : MarketPayload) :
    Except String HandlerOutcome :=
  if item.specVersion = specV1020000 ∨ item.specVersion = specV1021000 then
    let currency := currencyIdEncode p.underlyingCurrencyId
    let id := currencyToString currency
    let irm := env.rateModelEncode p.market.rateModel
    let height := env.blockToHeight block.height
    let st := match p.market.state with
      | .Supervision => "Supervision"
      | _ => "Pending"
    .ok (.processed [.loanMarket {
      id := "loanMarket_" ++ id
      token := currency
      height := height
      timestamp := block.timestamp
      borrowCap := p.market.borrowCap
      supplyCap := p.market.supplyCap
      rateModel := irm
      closeFactor := p.market.closeFactor
      lendTokenId := lendTokenValue p.market.lendTokenId
      state := st
      reserveFactor := p.market.reserveFactor
      collateralFactor := p.market.collateralFactor
      liquidateIncentive := p.market.liquidateIncentive
      liquidationThreshold := p.market.liquidationThreshold
      liquidateIncentiveReservedFactor := p.market.liquidateIncentiveReservedFactor }])
  else .ok (.skipped .warn "UNKOWN EVENT VERSION: LoansUpdatedMarketEvent")

/-- `activatedMarket` (loans.ts lines 252-299): looks the market up by its
asset-derived key; a missing market is logged and the event skipped. -/
def activatedMarket (env : Env) (block : Block) (item : EventItem) (cid : CurrencyId) :
    Except String HandlerOutcome :=
  if item.specVersion = specV1020000 ∨ item.specVersion = specV1021000 then
    let currency := currencyIdEncode cid
    let id := currencyToString currency
    match env.storeGetLoanMarket ("loanMarket_" ++ id) with
    | none =>
      .ok (.skipped .warn
        "WARNING: ActivatedMarket event did not match any existing LoanMarkets! Skipping.")
    | some marketDb =>
      let height := env.blockToHeight block.height
      let activation : ActivationRec :=
        { id := marketDb.id, marketId := marketDb.id, token := currency,
          height := height, timestamp := block.timestamp }
      let marketDb1 := { marketDb with state := "Active", activationId := some activation.id }
      .ok (.processed [.loanMarketActivation activation, .loanMarket marketDb1])
  else .ok (.skipped .warn "UNKOWN EVENT VERSION: LoansActivatedMarketEvent")

/-- `borrow` (loans.ts lines 301-349): emits one `Loan` keyed by the event id. -/
def borrow (env : Env) (block : Block) (item : EventItem) (p : LoanEventPayload) :
    Except String HandlerOutcome :=
  if item.specVersion = specV1020000 ∨ item.specVersion = specV1021000 then
    let currency := currencyIdEncode p.currencyId
    let height := env.blockToHeight block.height
    let account := env.addressEncode p.accountId
    let usdt := env.usdtRate block.timestamp currency
    let amountFriendly := env.friendlyAmount currency (p.amount : ℚ)
    let amountFiat := usdt * (p.amount : ℚ)
    let comment := env.getFirstAndLastFour account ++ " borrowed " ++ amountFriendly ++
      " at fiat value $" ++ env.formatNumber amountFiat
    .ok (.processed [.loan {
      id := item.id
      height := height
      timestamp := block.timestamp
      userParachainAddress := account
      token := currency
      amountBorrowed := some p.amount
      comment := comment }])
  else .ok (.skipped .warn "UNKOWN EVENT VERSION: LoansBorrowedEvent")

/-- `depositCollateral` (loans.ts lines 351-405): emits one `Deposit` keyed by the
event id; for lend-token deposits the comment uses the cached exchange rate. -/
def depositCollateral (env : Env) (rates : List Rate) (block : Block) (item : EventItem)
    (p : LoanEventPayload) : Except String HandlerOutcome :=
  if item.specVersion = specV1020000 ∨ item.specVersion = specV1021000 then
    let currency := currencyIdEncode p.currencyId
    let height := env.blockToHeight block.height
    let account := env.addressEncode p.accountId
    let comment : Option String :=
      match currency with
      | .LendToken ltid =>
        match env.lendTokenDetails ltid with
        | some newToken =>
          let sym := env.symbolFromCurrency newToken
          let exRate := (getRate rates block.height sym).1
          let newAmount := (p.amount : ℚ) * exRate.rate
          some (env.getFirstAndLastFour account ++ " deposited " ++
            env.friendlyAmount newToken newAmount ++ " for collateral")
        | none => none
      | _ =>
        some (env.getFirstAndLastFour account ++ " deposited " ++
          env.friendlyAmount currency (p.amount : ℚ) ++ " for collateral")
    .ok (.processed [.deposit {
      id := item.id
      height := height
      timestamp := block.timestamp
      userParachainAddress := account
      token := currency
      amountDeposited := some p.amount
      comment := comment }])
  else .ok (.skipped .warn "UNKOWN EVENT VERSION: LoansDepositCollateralEvent")

/-- `withdrawCollateral` (loans.ts lines 407-461). Note the unknown-version warning
reuses the DepositCollateral event name (source line 429). -/
def withdrawCollateral (env : Env) (rates : List Rate) (block : Block) (item : EventItem)
    (p : LoanEventPayload) : Except String HandlerOutcome :=
  if item.specVersion = specV1020000 ∨ item.specVersion = specV1021000 then
    let currency := currencyIdEncode p.currencyId
    let height := env.blockToHeight block.height
    let account := env.addressEncode p.accountId
    let comment : String :=
      match currency with
      | .LendToken ltid =>
        match env.lendTokenDetails ltid with
        | some newToken =>
          let sym := env.symbolFromCurrency newToken
          let exRate := (getRate rates block.height sym).1
          let newAmount := (p.amount : ℚ) * exRate.rate
          env.getFirstAndLastFour account ++ " withdrew " ++
            env.friendlyAmount newToken newAmount ++ " from collateral"
        | none => ""
      | _ =>
        env.getFirstAndLastFour account ++ " withdrew " ++
          env.friendlyAmount currency (p.amount : ℚ) ++ " from collateral"
    .ok (.processed [.deposit {
      id := item.id
      height := height
      timestamp := block.timestamp
      userParachainAddress := account
      token := currency
      amountWithdrawn := some p.amount
      comment := some comment }])
  else .ok (.skipped .warn "UNKOWN EVENT VERSION: LoansDepositCollateralEvent")

/-- `depositForLending` (loans.ts lines 463-504). -/
def depositForLending (env : Env) (block : Block) (item : EventItem) (p : LoanEventPayload) :
    Except String HandlerOutcome :=
  if item.specVersion = specV1020000 ∨ item.specVersion = specV1021000 then
    let currency := currencyIdEncode p.currencyId
    let height := env.blockToHeight block.height
    let account := env.addressEncode p.accountId
    let comment := env.getFirstAndLastFour account ++ " deposited " ++
      env.friendlyAmount currency (p.amount : ℚ) ++ " for lending"
    .ok (.processed [.deposit {
      id := item.id
      height := height
      timestamp := block.timestamp
      userParachainAddress := account
      token := currency
      amountDeposited := some p.amount
      comment := some comment }])
  else .ok (.skipped .warn "UNKOWN EVENT VERSION: LoansDepositedEvent")

/-- `repay` (loans.ts lines 524-565). -/
def repay (env : Env) (block : Block) (item : EventItem) (p : LoanEventPayload) :
    Except String HandlerOutcome :=
  if item.specVersion = specV1020000 ∨ item.specVersion = specV1021000 then
    let currency := currencyIdEncode p.currencyId
    let height := env.blockToHeight block.height
    let account := env.addressEncode p.accountId
    let comment := env.getFirstAndLastFour account ++ " paid back " ++
      env.friendlyAmount currency (p.amount : ℚ)
    .ok (.processed [.loan {
      id := item.id
      height := height
      timestamp := block.timestamp
      userParachainAddress := account
      token := currency
      amountRepaid := some p.amount
      comment := comment }])
  else .ok (.skipped .warn "UNKOWN EVENT VERSION: LoansRepaidBorrowEvent")

/-- `withdrawDeposit` (loans.ts lines 568-609). Note the unknown-version warning
reuses the RepaidBorrow event name (source line 590). -/
def withdrawDeposit (env : Env) (block : Block) (item : EventItem) (p : LoanEventPayload) :
    Except String HandlerOutcome :=
  if item.specVersion = specV1020000 ∨ item.specVersion = specV1021000 then
    let currency := currencyIdEncode p.currencyId
    let height := env.blockToHeight block.height
    let account := env.addressEncode p.accountId
    let comment := env.getFirstAndLastFour account ++ " withdrew " ++
      env.friendlyAmount currency (p.amount : ℚ) ++ " from deposit"
    .ok (.processed [.deposit {
      id := item.id
      height := height
      timestamp := block.timestamp
      userParachainAddress := account
      token := currency
      amountWithdrawn := some p.amount
      comment := some comment }])
  else .ok (.skipped .warn "UNKOWN EVENT VERSION: LoansRepaidBorrowEvent")

/-- `distributeBorrowerReward` (loans.ts lines 506-513): constructs the raw event
wrapper and does nothing else — no record, no log, any version. -/
def distributeBorrowerReward (_env : Env) (_block : Block) (_item : EventItem) :
    Except String HandlerOutcome :=
  .ok (.processed [])

/-- `distributeSupplierReward` (loans.ts lines 515-522): same no-op shape. -/
def distributeSupplierReward (_env : Env) (_block : Block) (_item : EventItem) :
    Except String HandlerOutcome :=
  .ok (.processed [])

/-- `liquidateLoan` (loans.ts lines 612-659): entirely commented out — no record,
no log, any version. -/
def liquidateLoan (_env : Env) (_block : Block) (_item : EventItem) :
    Except String HandlerOutcome :=
  .ok (.processed [])

/-- `accrueInterest` (loans.ts lines 662-701): decodes via `asV1021000` with no
version guard, so any other spec version fails the generated accessor's assertion
instead of warning; on a match it appends the sample to the rate log and emits one
`InterestAccrual` keyed by the event id. Returns the outcome and the rate log
after the call. -/
def accrueInterest (env : Env) (rates : List Rate) (block : Block) (item : EventItem)
    (p : InterestAccruedPayload) : Except String HandlerOutcome × List Rate :=
  if item.specVersion = specV1021000 then
    let ex : ℚ := (p.exchangeRate : ℚ) / ((10 : ℚ) ^ 18)
    let currency := currencyIdEncode p.underlyingCurrencyId
    let height := env.blockToHeight block.height
    let symbol := env.symbolFromCurrency currency
    let rates1 := addRate rates block.height symbol ex
    (.ok (.processed [.interestAccrual {
      id := item.id
      height := height
      timestamp := block.timestamp
      underlyingCurrency := currency
      currencySymbol := symbol
      totalBorrows := p.totalBorrows
      totalReserves := p.totalReserves
      borrowIndex := p.borrowIndex
      utilizationRatio := p.utilizationRatio
      borrowRate := p.borrowRate
      supplyRate := p.supplyRate
      exchangeRate := p.exchangeRate
      exchangeRateFloat := ex
      comment := "Exchange rate for " ++ symbol ++ " now " ++ env.formatNumber ex }]),
     rates1)
  else (.error assertionFailedMessage, rates)

/-- `isPooledToken` (dex.ts lines 731-738), backed by the generated
`fromJsonPooledToken`: the pooled variants are exactly the non-pair ones. -/
def isPooledToken : Currency → Bool
  | .LpTokenPair _ _ => false
  | _ => true

/-- One swap leg amount (`SwapDetailsAmount` of cumulativeVolumes.ts, as used by
the sources): currency and atomic amount, with the optional account and raw
currency id consumed by `buildNewSwapEntity`. -/
structure SwapDetailsAmount where
  currency : Currency
  atomicAmount : Int
  accountId : Option String := none
  currencyId : Option CurrencyId := none
deriving DecidableEq, Repr

/-- A (from, to) pair of consecutive swap legs. -/
structure SwapDetails where
  fromLeg : SwapDetailsAmount
  toLeg : SwapDetailsAmount
deriving DecidableEq, Repr

/-- The element loop of `createSwapDetailsAmounts` (dex.ts lines 757-775) on the
zipped (currency, balance) list: fail at the first non-pooled currency. -/
def mkAmounts : List (Currency × Int) → Except String (List SwapDetailsAmount)
  | [] => .ok []
  | (c, b) :: rest =>
    if isPooledToken c then
      match mkAmounts rest with
      | .ok amounts => .ok ({ currency := c, atomicAmount := b } :: amounts)
      | .error e => .error e
    else
      .error ("Cannot create SwapDetailsAmounts; unexpected currency type found (" ++
        isTypeOf c ++ "), skip processing of DexGeneralAssetSwapEvent")

/-- `createSwapDetailsAmounts` (dex.ts lines 748-776): length check, then the
element loop. -/
def createSwapDetailsAmounts (currencies : List Currency) (atomicBalances : List Int) :
    Except String (List SwapDetailsAmount) :=
  if currencies.length ≠ atomicBalances.length then
    .error ("Cannot create SwapDetailsAmounts; currency count [" ++
      toString currencies.length ++ "] does not match balance count [" ++
      toString atomicBalances.length ++ "]")
  else mkAmounts (currencies.zip atomicBalances)

/-- `createPairWiseSwapDetails` (dex.ts lines 783-796): consecutive legs form
(from, to) pairs. -/
def createPairWiseSwapDetails : List SwapDetailsAmount → List SwapDetails
  | a :: b :: rest => { fromLeg := a, toLeg := b } :: createPairWiseSwapDetails (b :: rest)
  | _ => []

/-- `updateTotalAndPerAccountVolumesAndTradeCounts` (dex.ts lines 798-840): the
four account/global aggregates are computed concurrently via `Promise.all`, and
their records are then pushed in the fixed source order total volume, per-account
volume, total trade count, per-account trade count (lines 836-839). -/
def updateTotalAndPerAccountVolumesAndTradeCounts (env : Env) : List PushRec :=
  [ .dexVolume "CumulativeDexTradingVolume" env.totalVolumeId,
    .dexVolume "CumulativeDexTradingVolumePerAccount" env.perAccountVolumeId,
    .dexVolume "CumulativeDexTradeCount" env.totalTradeCountId,
    .dexVolume "CumulativeDexTradeCountPerAccount" env.perAccountTradeCountId ]

/-- `dexGeneralAssetSwap` (dex.ts lines 842-902): unknown version warns and skips;
non-pooled currencies log an error and skip; a `createSwapDetailsAmounts` throw is
caught, logged and skipped; otherwise one per-pool volume record per leg is pushed
sequentially, followed by the four account/global records. -/
def dexGeneralAssetSwap (env : Env) (_block : Block) (item : EventItem)
    (p : DexGeneralPayload) : Except String HandlerOutcome :=
  if item.specVersion = specV1021000 then
    let currencies := p.swapPath.map currencyIdEncode
    match currencies.find? (fun c => !(isPooledToken c)) with
    | some c =>
      .ok (.skipped .error ("Unexpected currency type " ++ isTypeOf c ++
        " in pool, skip processing of DexGeneralAssetSwapEvent"))
    | none =>
      match createSwapDetailsAmounts currencies p.balances with
      | .error e => .ok (.skipped .error e)
      | .ok amounts =>
        let swapDetailsList := createPairWiseSwapDetails amounts
        let perPool := swapDetailsList.map fun _ =>
          PushRec.dexVolume "CumulativeDexTradingVolumePerPool" env.standardPoolVolumeId
        .ok (.processed (perPool ++ updateTotalAndPerAccountVolumesAndTradeCounts env))
  else .ok (.skipped .warn "UNKOWN EVENT VERSION: DexGeneral.AssetSwap")

/-- The JS `isTypeOf` access on the whole `[Currency, CurrencyId]` pair that
`dexStableCurrencyExchange` assigns without destructuring (dex.ts lines 931-932):
an array carries no `isTypeOf` property, so the access yields `undefined`,
printed as "undefined" by the log template. -/
def pairIsTypeOf (_pair : Currency × CurrencyId) : String := "undefined"

/-- `isPooledToken` applied to the whole `[Currency, CurrencyId]` pair, as the
source does (dex.ts lines 934 and 938): the backing `fromJsonPooledToken`
dispatches on `json.isTypeOf`, which the array does not have, so it throws inside
the try/catch and the guard returns false for every pair. -/
def isPooledTokenOnPair (_pair : Currency × CurrencyId) : Bool := false

/-- `dexStableCurrencyExchange` (dex.ts lines 904-974): unknown version warns and
skips; the out value is resolved before the in value through the stable-pool
cache (errors thrown there propagate out of the handler). The resolved values are
the whole `[Currency, CurrencyId]` pairs — the source never destructures them —
so the pooled-token guard fails for every pair, the handler always logs the
"Unexpected currencyIn type undefined" error and skips after a successful
resolution, and the push branch below the guards is unreachable. Returns the
outcome and the cache state after the call. -/
def dexStableCurrencyExchange (env : Env) (senv : StableStorageEnv) (cache : PoolCache)
    (_block : Block) (item : EventItem) (p : DexStablePayload) :
    Except String HandlerOutcome × PoolCache :=
  if item.specVersion = specV1021000 then
    let outLookup := getStablePoolCurrencyByIndex senv cache p.poolId p.outIndex
    match outLookup.result with
    | .error e => (.error e, outLookup.cache)
    | .ok outCurrency =>
      let inLookup := getStablePoolCurrencyByIndex senv outLookup.cache p.poolId p.inIndex
      match inLookup.result with
      | .error e => (.error e, inLookup.cache)
      | .ok inCurrency =>
        if !(isPooledTokenOnPair inCurrency) then
          (.ok (.skipped .error ("Unexpected currencyIn type " ++ pairIsTypeOf inCurrency ++
            ", skip processing of DexGeneralAssetSwapEvent")), inLookup.cache)
        else if !(isPooledTokenOnPair outCurrency) then
          (.ok (.skipped .error ("Unexpected currencyOut type " ++ pairIsTypeOf outCurrency ++
            ", skip processing of DexGeneralAssetSwapEvent")), inLookup.cache)
        else
          (.ok (.processed
            (PushRec.dexVolume "CumulativeDexTradingVolumePerPool" env.stablePoolVolumeId ::
              updateTotalAndPerAccountVolumesAndTradeCounts env)), inLookup.cache)
  else (.ok (.skipped .warn "UNKOWN EVENT VERSION: DexStable.CurrencyExchange"), cache)

/-! ### Swap entity construction (pools.ts lines 193-249) -/

/-- Pool mechanism discriminant. -/
inductive PoolType where
  | Standard
  | Stable
deriving DecidableEq, Repr

/-- The `PairStatus` storage value of `DexGeneral.PairStatuses` (v1021000):
`Trading` carries the fee rate in basis points. -/
inductive PairStatus where
  | Trading (feeRate : Int)
  | Bootstrap
  | Disable
deriving DecidableEq, Repr

/-- The `DexGeneralPairStatusesStorage` collaborator (generated storage accessor).
The pair key components may be JS `undefined` because the swap legs' raw currency
ids are optional. -/
structure PairStorageEnv where
  isExists : Bool
  isV1021000 : Bool
  pairStatus : Option CurrencyId × Option CurrencyId → PairStatus

/-- A pooled amount produced by the external `createPooledAmount`
(cumulativeVolumes.ts, not among the repository's source files). -/
structure PooledAmountRec where
  currency : Currency
  amount : Int
  accountId : Option String := none
deriving DecidableEq, Repr

/-- A `Swap` record. -/
structure SwapRec where
  id : String
  height : Nat
  timestamp : Nat
  fromAccount : Option String
  toAccount : Option String
  fromAmount : PooledAmountRec
  toAmount : PooledAmountRec
  fees : PooledAmountRec
  feeRate : ℚ
deriving DecidableEq, Repr

/-- The external `createPooledAmount` collaborator: it resolves the pooled token
metadata for a leg; only the fields visible at this level are carried. -/
def createPooledAmount (leg : SwapDetailsAmount) : PooledAmountRec :=
  { currency := leg.currency, amount := leg.atomicAmount, accountId := leg.accountId }

/-- The `new Swap({...})` construction of `buildNewSwapEntity` (pools.ts lines
236-246). The id field is the hard-coded string literal "abc" of source line 237,
not the event identifier. -/
def mkSwapRecord (height timestamp : Nat) (fromAccount toAccount : Option String)
    (fromAmount toAmount fees : PooledAmountRec) (feeRate : ℚ) : SwapRec :=
  { id := "abc"
    height := height
    timestamp := timestamp
    fromAccount := fromAccount
    toAccount := toAccount
    fromAmount := fromAmount
    toAmount := toAmount
    fees := fees
    feeRate := feeRate }

/-- The fee-rate fetch of `buildNewSwapEntity` (pools.ts lines 202-222): zero
unless the pool is a standard pool whose pair status is `Trading`, in which case
the stored basis points are scaled by 0.0001. Errors of `compareCurrencies` and of
a missing storage representation propagate. -/
def swapFeeRate (penv : PairStorageEnv) (poolType : PoolType) (sd : SwapDetails) :
    Except String ℚ :=
  if poolType = PoolType.Standard then
    match compareCurrencies sd.fromLeg.currency sd.toLeg.currency with
    | .error e => .error e
    | .ok v =>
      let pairKey := if v < 0 then (sd.fromLeg.currencyId, sd.toLeg.currencyId)
        else (sd.toLeg.currencyId, sd.fromLeg.currencyId)
      if penv.isExists = false then
        .error "buildNewSwapEntity: DexGeneral.PairStatuses storage is not defined for this spec version"
      else if penv.isV1021000 = true then
        match penv.pairStatus pairKey with
        | .Trading bp => .ok ((bp : ℚ) * (1 / 10000 : ℚ))
        | _ => .ok 0
      else .ok 0
  else .ok 0

/-- `buildNewSwapEntity` (pools.ts lines 193-249): fetch the fee rate, apply it to
the from-amount with `Big.toPrecision(0, RoundDown)` (source line 227), convert
the resulting string with `BigInt`, and construct the `Swap` record. -/
def buildNewSwapEntity (penv : PairStorageEnv) (poolType : PoolType) (sd : SwapDetails)
    (height timestamp : Nat) : Except String SwapRec :=
  match swapFeeRate penv poolType sd with
  | .error e => .error e
  | .ok feeRate =>
    match bigToPrecision (feeRate * (sd.fromLeg.atomicAmount : ℚ)) 0 with
    | .error e => .error e
    | .ok adjustedAmount =>
      match rationalToBigInt adjustedAmount with
      | .error e => .error e
      | .ok feeAtomic =>
        let feeDetails := { sd.fromLeg with atomicAmount := feeAtomic }
        .ok (mkSwapRecord height timestamp sd.fromLeg.accountId sd.toLeg.accountId
          (createPooledAmount sd.fromLeg) (createPooledAmount sd.toLeg)
          (createPooledAmount feeDetails) feeRate)

/-! ### Sample collaborator instances used by concrete evaluations -/

/-- A concrete environment with simple collaborator functions, used to evaluate
the handlers at concrete inputs. -/
def sampleEnv : Env :=
  { blockToHeight := fun h => h
    addressEncode := fun a => "acct" ++ toString a
    getFirstAndLastFour := fun s => s
    friendlyAmount := fun _ _ => "amt"
    formatNumber := fun _ => "num"
    symbolFromCurrency := fun c => currencyToString c
    lendTokenDetails := fun _ => none
    usdtRate := fun _ _ => 1
    btcRate := fun _ _ => 1
    rateModelEncode := fun r => r
    storeGetLoanMarket := fun _ => none
    standardPoolVolumeId := none
    stablePoolVolumeId := none
    totalVolumeId := none
    perAccountVolumeId := none
    totalTradeCountId := none
    perAccountTradeCountId := none }

/-- A concrete block. -/
def sampleBlock : Block := { height := 100, timestamp := 1700000000000 }

/-- A concrete InterestAccrued payload. -/
def sampleAccruedPayload : InterestAccruedPayload :=
  { underlyingCurrencyId := .Token .DOT
    totalBorrows := 0
    totalReserves := 0
    borrowIndex := 0
    utilizationRatio := 0
    borrowRate := 0
    supplyRate := 0
    exchangeRate := 20000000000000000 }

/-- A concrete stable-pool storage snapshot: pool 5 is a base pool holding DOT and
IBTC. -/
def sampleStableStorage : StableStorageEnv :=
  { isExists := true
    isV1021000 := true
    pools := fun poolId =>
      if poolId = 5 then some (.Base [.Token .DOT, .Token .IBTC]) else none }

/-- A concrete stable-pool storage snapshot with no pools at all. -/
def emptyStableStorage : StableStorageEnv :=
  { isExists := true, isV1021000 := true, pools := fun _ => none }

/-- A concrete pair-status storage whose every pair trades at 30 basis points. -/
def tradingPairEnv : PairStorageEnv :=
  { isExists := true, isV1021000 := true, pairStatus := fun _ => .Trading 30 }

/-- A concrete standard-pool swap leg pair: 1,000,000 atomic DOT into IBTC. -/
def feeSampleSwapDetails : SwapDetails :=
  { fromLeg := { currency := .NativeToken .DOT, atomicAmount := 1000000 }
    toLeg := { currency := .NativeToken .IBTC, atomicAmount := 995000 } }



/-- A concrete cached membership for pool 5: DOT and IBTC. -/
def sampleStableCache : PoolCache :=
  [(5, [(.NativeToken .DOT, .Token .DOT), (.NativeToken .IBTC, .Token .IBTC)])]

/-- A concrete three-hop standard-swap payload. -/
def sampleDexGeneralPayload : DexGeneralPayload :=
  { who := 1
    swapPath := [.Token .DOT, .Token .IBTC, .Token .KSM]
    balances := [100, 90, 80] }

/-- A concrete stable-swap payload on pool 5. -/
def sampleDexStablePayload : DexStablePayload :=
  { poolId := 5, inIndex := 0, outIndex := 1, inAmount := 10, outAmount := 9, who := 3 }

/-- A concrete loans-event payload. -/
def sampleLoanPayload : LoanEventPayload :=
  { accountId := 7, currencyId := .Token .DOT, amount := 1000 }

/-- A concrete market payload. -/
def sampleMarketPayload : MarketPayload :=
  { underlyingCurrencyId := .Token .DOT
    market :=
      { lendTokenId := .LendToken 1
        borrowCap := 0
        supplyCap := 0
        rateModel := 0
        closeFactor := 0
        reserveFactor := 0
        collateralFactor := 0
        liquidateIncentive := 0
        liquidationThreshold := 0
        liquidateIncentiveReservedFactor := 0
        state := .Pending } }

/-! ### Theorems -/

theorem nativeTokenToIndexMap_lookup (t : Token) :
    nativeTokenToIndexMap.lookup t = some (tokenIndex t).toNat := by
  cases t <;> rfl

theorem currencyToIndex_native (t : Token) :
    currencyToIndex (.NativeToken t) = .ok (tokenIndex t) := by
  cases t <;> rfl

theorem tokenIndex_inj (s t : Token) (h : tokenIndex s = tokenIndex t) : s = t := by
  cases s <;> cases t <;> first | rfl | (exfalso; revert h; decide)

/-- Core lexicographic characterization of `compareCurrencies` on the supported
variants: it always succeeds, is zero exactly on equal inputs, and its sign is the
lexicographic order on (variant-type rank, variant-specific index). -/
theorem compare_lex_core (a b : Currency)
    (ha : isSupportedCurrency a = true) (hb : isSupportedCurrency b = true) :
    ∃ ra rb : Nat, ∃ ia ib v : Int,
      currencyTypeToIndexMap.lookup (isTypeOf a) = some ra ∧
      currencyTypeToIndexMap.lookup (isTypeOf b) = some rb ∧
      currencyToIndex a = .ok ia ∧
      currencyToIndex b = .ok ib ∧
      compareCurrencies a b = .ok v ∧
      (v = 0 ↔ a = b) ∧
      (v < 0 ↔ (ra < rb ∨ (ra = rb ∧ ia < ib))) ∧
      (0 < v ↔ (rb < ra ∨ (ra = rb ∧ ib < ia))) := by
  cases a with
  | LpTokenPair x y => exact absurd ha (by simp [isSupportedCurrency])
  | NativeToken s =>
    cases b with
    | LpTokenPair x y => exact absurd hb (by simp [isSupportedCurrency])
    | NativeToken t =>
      refine ⟨0, 0, tokenIndex s, tokenIndex t, tokenIndex s - tokenIndex t, rfl, rfl,
        currencyToIndex_native s, currencyToIndex_native t, ?_, ?_, ?_, ?_⟩
      · cases s <;> cases t <;> rfl
      · constructor
        · intro h
          have : tokenIndex s = tokenIndex t := by omega
          rw [tokenIndex_inj s t this]
        · intro h
          cases h
          omega
      · constructor
        · intro h; right; exact ⟨rfl, by omega⟩
        · rintro (h | ⟨-, h⟩)
          · omega
          · omega
      · constructor
        · intro h; right; exact ⟨rfl, by omega⟩
        · rintro (h | ⟨-, h⟩)
          · omega
          · omega
    | ForeignAsset n =>
      refine ⟨0, 1, tokenIndex s, n, -1, rfl, rfl, currencyToIndex_native s, rfl, by rfl,
        ?_, ?_, ?_⟩ <;> simp
    | LendToken n =>
      refine ⟨0, 2, tokenIndex s, n, -2, rfl, rfl, currencyToIndex_native s, rfl, by rfl,
        ?_, ?_, ?_⟩ <;> simp
    | StableLpToken n =>
      refine ⟨0, 4, tokenIndex s, n, -4, rfl, rfl, currencyToIndex_native s, rfl, by rfl,
        ?_, ?_, ?_⟩ <;> simp
  | ForeignAsset m =>
    cases b with
    | LpTokenPair x y => exact absurd hb (by simp [isSupportedCurrency])
    | NativeToken t =>
      refine ⟨1, 0, m, tokenIndex t, 1, rfl, rfl, rfl, currencyToIndex_native t, by rfl,
        ?_, ?_, ?_⟩ <;> simp
    | ForeignAsset n =>
      refine ⟨1, 1, m, n, (m : Int) - n, rfl, rfl, rfl, rfl, rfl, ?_, ?_, ?_⟩
      · simp only [Currency.ForeignAsset.injEq]; omega
      · simp only [Nat.lt_irrefl, false_or, true_and]; omega
      · simp only [Nat.lt_irrefl, false_or, true_and]; omega
    | LendToken n =>
      refine ⟨1, 2, m, n, -1, rfl, rfl, rfl, rfl, by rfl, ?_, ?_, ?_⟩ <;> simp
    | StableLpToken n =>
      refine ⟨1, 4, m, n, -3, rfl, rfl, rfl, rfl, by rfl, ?_, ?_, ?_⟩ <;> simp
  | LendToken m =>
    cases b with
    | LpTokenPair x y => exact absurd hb (by simp [isSupportedCurrency])
    | NativeToken t =>
      refine ⟨2, 0, m, tokenIndex t, 2, rfl, rfl, rfl, currencyToIndex_native t, by rfl,
        ?_, ?_, ?_⟩ <;> simp
    | ForeignAsset n =>
      refine ⟨2, 1, m, n, 1, rfl, rfl, rfl, rfl, by rfl, ?_, ?_, ?_⟩ <;> simp
    | LendToken n =>
      refine ⟨2, 2, m, n, (m : Int) - n, rfl, rfl, rfl, rfl, rfl, ?_, ?_, ?_⟩
      · simp only [Currency.LendToken.injEq]; omega
      · simp only [Nat.lt_irrefl, false_or, true_and]; omega
      · simp only [Nat.lt_irrefl, false_or, true_and]; omega
    | StableLpToken n =>
      refine ⟨2, 4, m, n, -2, rfl, rfl, rfl, rfl, by rfl, ?_, ?_, ?_⟩ <;> simp
  | StableLpToken m =>
    cases b with
    | LpTokenPair x y => exact absurd hb (by simp [isSupportedCurrency])
    | NativeToken t =>
      refine ⟨4, 0, m, tokenIndex t, 4, rfl, rfl, rfl, currencyToIndex_native t, by rfl,
        ?_, ?_, ?_⟩ <;> simp
    | ForeignAsset n =>
      refine ⟨4, 1, m, n, 3, rfl, rfl, rfl, rfl, by rfl, ?_, ?_, ?_⟩ <;> simp
    | LendToken n =>
      refine ⟨4, 2, m, n, 2, rfl, rfl, rfl, rfl, by rfl, ?_, ?_, ?_⟩ <;> simp
    | StableLpToken n =>
      refine ⟨4, 4, m, n, (m : Int) - n, rfl, rfl, rfl, rfl, rfl, ?_, ?_, ?_⟩
      · simp only [Currency.StableLpToken.injEq]; omega
      · simp only [Nat.lt_irrefl, false_or, true_and]; omega
      · simp only [Nat.lt_irrefl, false_or, true_and]; omega

theorem compareCurrencyType_antisym (a b : Currency) (t : Int)
    (h : compareCurrencyType a b = .ok t) : compareCurrencyType b a = .ok (-t) := by
  unfold compareCurrencyType at h ⊢
  by_cases he : isTypeOf a = isTypeOf b
  · rw [if_pos he] at h
    rw [if_pos he.symm]
    injection h with h0
    rw [← h0]
    rfl
  · rw [if_neg he] at h
    rw [if_neg (fun hh => he hh.symm)]
    cases ha : currencyTypeToIndexMap.lookup (isTypeOf a) with
    | none => simp [ha] at h
    | some ta =>
      cases hb : currencyTypeToIndexMap.lookup (isTypeOf b) with
      | none => simp [ha, hb] at h
      | some tb =>
        simp only [ha, hb] at h ⊢
        injection h with h0
        congr 1
        omega

theorem compareCurrencies_antisym (a b : Currency) (v : Int)
    (h : compareCurrencies a b = .ok v) : compareCurrencies b a = .ok (-v) := by
  unfold compareCurrencies at h ⊢
  cases hct : compareCurrencyType a b with
  | error e => simp [hct] at h
  | ok t =>
    have hct2 := compareCurrencyType_antisym a b t hct
    simp only [hct] at h
    simp only [hct2]
    by_cases ht : t = 0
    · subst ht
      simp only [ne_eq, not_true_eq_false, if_false, neg_zero, reduceIte] at h ⊢
      cases hia : currencyToIndex a with
      | error e => simp [hia] at h
      | ok ia =>
        cases hib : currencyToIndex b with
        | error e => simp [hia, hib] at h
        | ok ib =>
          simp only [hia, hib] at h ⊢
          injection h with h0
          congr 1
          omega
    · have hnt : -t ≠ 0 := by omega
      simp only [ne_eq, ht, not_false_eq_true, if_true, hnt] at h ⊢
      injection h with h0
      rw [← h0]

theorem compare_ok_supported (a b : Currency) (v : Int)
    (h : compareCurrencies a b = .ok v) :
    isSupportedCurrency a = true ∧ isSupportedCurrency b = true := by
  cases a <;> cases b <;>
    first
      | exact ⟨rfl, rfl⟩
      | (exfalso
         revert h
         simp [compareCurrencies, compareCurrencyType, currencyToIndex, isTypeOf,
           currencyTypeToIndexMap, indexToCurrencyTypeMap, invertMap, List.lookup])

theorem compare_ok_zero_eq (a b : Currency) (h : compareCurrencies a b = .ok 0) :
    a = b := by
  obtain ⟨ha, hb⟩ := compare_ok_supported a b 0 h
  obtain ⟨ra, rb, ia, ib, v, -, -, -, -, hcmp, hiff, -, -⟩ := compare_lex_core a b ha hb
  rw [hcmp] at h
  injection h with h0
  exact hiff.mp h0

/-- **C1** (counterexample): `compareCurrencies` does not return a value in
{-1, 0, 1} — comparing the native tokens DOT and INTR yields -2 — and it is not
total on all five declared variants: the pool-share pair variant makes it throw,
because its discriminant "LpTokenPair" is missing from the rank table. -/
theorem claim1_counterexample :
    compareCurrencies (.NativeToken .DOT) (.NativeToken .INTR) = .ok (-2) ∧
    ¬((-2 : Int) = -1 ∨ (-2 : Int) = 0 ∨ (-2 : Int) = 1) ∧
    ∃ e, compareCurrencies (.LpTokenPair (.NativeToken .DOT) (.NativeToken .IBTC))
      (.NativeToken .DOT) = .error e := by
  refine ⟨by rfl, by decide, ⟨_, by rfl⟩⟩

/-- **C1** (amended): on the four variants the rank table and the index switch
actually cover (NativeToken, ForeignAsset, LendToken, StableLpToken),
`compareCurrencies` always succeeds and returns an integer whose sign — not a
value constrained to {-1,0,1} — implements the strict total order given first by
the variant-type rank and then by the variant-specific numeric index (native
tokens via the fixed token table DOT=0, IBTC=1, INTR=2, KSM=10, KBTC=11, KINT=12,
others by their own id); it returns zero exactly on equal assets, so any two
distinct assets compare non-zero. -/
theorem claim1_amended_compare_sign_order (a b : Currency)
    (ha : isSupportedCurrency a = true) (hb : isSupportedCurrency b = true) :
    ∃ ra rb : Nat, ∃ ia ib v : Int,
      currencyTypeToIndexMap.lookup (isTypeOf a) = some ra ∧
      currencyTypeToIndexMap.lookup (isTypeOf b) = some rb ∧
      currencyToIndex a = .ok ia ∧
      currencyToIndex b = .ok ib ∧
      compareCurrencies a b = .ok v ∧
      (v = 0 ↔ a = b) ∧
      (v < 0 ↔ (ra < rb ∨ (ra = rb ∧ ia < ib))) ∧
      (0 < v ↔ (rb < ra ∨ (ra = rb ∧ ib < ia))) :=
  compare_lex_core a b ha hb

/-- **C1** (witness): the amended characterization instantiated at the pair
(DOT, ForeignAsset 9). -/
theorem claim1_witness :
    ∃ ra rb : Nat, ∃ ia ib v : Int,
      currencyTypeToIndexMap.lookup (isTypeOf (.NativeToken .DOT)) = some ra ∧
      currencyTypeToIndexMap.lookup (isTypeOf (.ForeignAsset 9)) = some rb ∧
      currencyToIndex (.NativeToken .DOT) = .ok ia ∧
      currencyToIndex (.ForeignAsset 9) = .ok ib ∧
      compareCurrencies (.NativeToken .DOT) (.ForeignAsset 9) = .ok v ∧
      (v = 0 ↔ (Currency.NativeToken .DOT) = (.ForeignAsset 9)) ∧
      (v < 0 ↔ (ra < rb ∨ (ra = rb ∧ ia < ib))) ∧
      (0 < v ↔ (rb < ra ∨ (ra = rb ∧ ib < ia))) :=
  claim1_amended_compare_sign_order (.NativeToken .DOT) (.ForeignAsset 9) rfl rfl

/-- **C2** (confirmed): canonicalization is input-order independent — wherever
`compareCurrencies` returns, swapping its arguments negates the result;
`orderCurrencies` and `inferGeneralPoolId` return the same value for both argument
orders; and the inferred pool key is the string "(lo,hi)" built from the ordered
pair's stringifications. -/
theorem claim2_order_independence (a b : Currency) :
    (∀ v, compareCurrencies a b = .ok v → compareCurrencies b a = .ok (-v)) ∧
    (∀ p, orderCurrencies a b = .ok p → orderCurrencies b a = .ok p) ∧
    (∀ k, inferGeneralPoolId a b = .ok k → inferGeneralPoolId b a = .ok k) ∧
    (∀ lo hi, orderCurrencies a b = .ok (lo, hi) →
      inferGeneralPoolId a b =
        .ok ("(" ++ currencyToString lo ++ "," ++ currencyToString hi ++ ")")) := by
  have horder : ∀ p, orderCurrencies a b = .ok p → orderCurrencies b a = .ok p := by
    intro p hp
    unfold orderCurrencies at hp ⊢
    cases hv : compareCurrencies a b with
    | error e => simp [hv] at hp
    | ok v =>
      have hv2 := compareCurrencies_antisym a b v hv
      simp only [hv] at hp
      simp only [hv2]
      by_cases h0 : v = 0
      · subst h0
        have heq := compare_ok_zero_eq a b hv
        subst heq
        simpa using hp
      · by_cases hpos : v > 0
        · have : ¬(-v > 0) := by omega
          rw [if_pos hpos] at hp
          rw [if_neg this]
          exact hp
        · have : -v > 0 := by omega
          rw [if_neg hpos] at hp
          rw [if_pos this]
          exact hp
  refine ⟨compareCurrencies_antisym a b, horder, ?_, ?_⟩
  · intro k hk
    unfold inferGeneralPoolId at hk ⊢
    cases ho : orderCurrencies a b with
    | error e => simp [ho] at hk
    | ok p =>
      rw [horder p ho]
      rw [ho] at hk
      exact hk
  · intro lo hi ho
    unfold inferGeneralPoolId
    rw [ho]

/-- **C2** (witness): antisymmetry, order-pair and pool-key symmetry instantiated
at the concrete pair (DOT, INTR), whose comparison value is -2. -/
theorem claim2_witness :
    compareCurrencies (.NativeToken .INTR) (.NativeToken .DOT) = .ok (-(-2)) ∧
    orderCurrencies (.NativeToken .INTR) (.NativeToken .DOT) =
      .ok (.NativeToken .DOT, .NativeToken .INTR) ∧
    inferGeneralPoolId (.NativeToken .INTR) (.NativeToken .DOT) = .ok "(DOT,INTR)" ∧
    inferGeneralPoolId (.NativeToken .DOT) (.NativeToken .INTR) =
      .ok ("(" ++ currencyToString (.NativeToken .DOT) ++ "," ++
        currencyToString (.NativeToken .INTR) ++ ")") := by
  refine ⟨(claim2_order_independence (.NativeToken .DOT) (.NativeToken .INTR)).1 (-2)
      (by rfl),
    (claim2_order_independence (.NativeToken .DOT) (.NativeToken .INTR)).2.1
      (.NativeToken .DOT, .NativeToken .INTR) (by rfl),
    (claim2_order_independence (.NativeToken .DOT) (.NativeToken .INTR)).2.2.1
      "(DOT,INTR)" (by rfl),
    (claim2_order_independence (.NativeToken .DOT) (.NativeToken .INTR)).2.2.2
      (.NativeToken .DOT) (.NativeToken .INTR) (by rfl)⟩


theorem getRateScan_eq_head_filter (block : Nat) (symbol : String) (l : List Rate) :
    getRateScan block symbol l =
      (l.filter fun r => decide (r.symbol = symbol ∧ r.block ≤ block)).head? := by
  induction l with
  | nil => rfl
  | cons r rest ih =>
    by_cases h : r.symbol = symbol ∧ r.block ≤ block
    · simp [getRateScan, List.filter_cons, h]
    · simp [getRateScan, List.filter_cons, h, ih]

/-- **C4** (confirmed): after recording the samples (100, "DOT", 0.05) and
(200, "DOT", 0.07), a query for "DOT" at height 150 returns 0.05, at 250 returns
0.07, and at 50 returns the fixed fallback rate 0.02 together with the diagnostic
note; in general `getRate` returns the last recorded sample for the symbol with
height at or below the queried height (the backward scan from the most recently
appended sample), falling back exactly when no such sample exists. -/
theorem claim4_rate_lookback :
    (getRate (addRate (addRate [] 100 "DOT" (1 / 20)) 200 "DOT" (7 / 100)) 150 "DOT" =
        ({ block := 100, symbol := "DOT", rate := 1 / 20 }, false) ∧
      getRate (addRate (addRate [] 100 "DOT" (1 / 20)) 200 "DOT" (7 / 100)) 250 "DOT" =
        ({ block := 200, symbol := "DOT", rate := 7 / 100 }, false) ∧
      getRate (addRate (addRate [] 100 "DOT" (1 / 20)) 200 "DOT" (7 / 100)) 50 "DOT" =
        ({ block := 50, symbol := "DOT", rate := 1 / 50 }, true)) ∧
    ∀ (rates : List Rate) (block : Nat) (symbol : String),
      getRate rates block symbol =
        match (rates.filter fun r => decide (r.symbol = symbol ∧ r.block ≤ block)).getLast? with
        | some r => (r, false)
        | none => ({ block := block, symbol := symbol, rate := 1 / 50 }, true) := by
  constructor
  · exact ⟨rfl, rfl, rfl⟩
  · intro rates block symbol
    unfold getRate
    rw [getRateScan_eq_head_filter, List.filter_reverse, List.head?_reverse]

/-- **C10** (confirmed): `legacyCurrencyId.encode` always yields a `NativeToken`,
maps the pre-rename kind INTERBTC to the token IBTC (agreeing with the encoding of
the post-rename kind), and the resulting canonical key is "IBTC". -/
theorem claim10_legacy_normalization :
    (∀ t : LegacyTokenKind, ∃ tok : Token, legacyCurrencyIdEncode t = .NativeToken tok) ∧
    legacyCurrencyIdEncode .INTERBTC = .NativeToken .IBTC ∧
    legacyCurrencyIdEncode .INTERBTC = legacyCurrencyIdEncode .IBTC ∧
    currencyToString (legacyCurrencyIdEncode .INTERBTC) = "IBTC" := by
  refine ⟨fun t => ?_, rfl, rfl, rfl⟩
  cases t <;> exact ⟨_, rfl⟩

/-- **C6** (code bug): the mathematical fee for feeRate 0.003 (30 bp) and
fromAmount 1,000,000 is 3000, but the source computes it with
`Big.toPrecision(0, RoundDown)`, and big.js rejects a precision below 1, so
`buildNewSwapEntity` raises "[big.js] Invalid precision" instead of producing the
floor — for every standard-pool swap, whatever the fee rate. -/
theorem claim6_fee_rounding_bug :
    ((30 : ℚ) * (1 / 10000) * 1000000 = 3000) ∧
    bigToPrecision 3000 0 = .error "[big.js] Invalid precision" ∧
    buildNewSwapEntity tradingPairEnv .Standard feeSampleSwapDetails 11 22 =
      .error "[big.js] Invalid precision" ∧
    (∀ (penv : PairStorageEnv) (sd : SwapDetails) (height timestamp : Nat) (rec : SwapRec),
      buildNewSwapEntity penv .Standard sd height timestamp ≠ .ok rec) := by
  refine ⟨by norm_num, by rfl, by rfl, ?_⟩
  intro penv sd height timestamp rec h
  unfold buildNewSwapEntity at h
  cases hfr : swapFeeRate penv .Standard sd with
  | error e => simp [hfr] at h
  | ok feeRate =>
    rw [hfr] at h
    simp only [bigToPrecision, Nat.lt_irrefl, Nat.zero_lt_one, if_pos] at h
    exact Except.noConfusion h

/-- **C9** (code bug): the `Swap` record constructed in `buildNewSwapEntity`
carries the constant id "abc" whatever the inputs, while the `Loan` emitted by
`borrow` does carry the originating event's stable identifier — so the swap
entity violates the stated id contract that the loan entity satisfies. -/
theorem claim9_swap_id_bug :
    (∀ (height timestamp : Nat) (fa ta : Option String) (f t fe : PooledAmountRec) (fr : ℚ),
      (mkSwapRecord height timestamp fa ta f t fe fr).id = "abc") ∧
    (∃ l : LoanRec,
      borrow sampleEnv sampleBlock
          { id := "0001685003-000030-7cf3a", specVersion := specV1021000 }
          { accountId := 7, currencyId := .Token .DOT, amount := 1000 } =
        .ok (.processed [.loan l]) ∧ l.id = "0001685003-000030-7cf3a") ∧
    "abc" ≠ "0001685003-000030-7cf3a" := by
  refine ⟨fun _ _ _ _ _ _ _ _ => rfl, ⟨_, by rfl, by rfl⟩, by decide⟩


/-- **C5** (confirmed): with pool 5's cached membership [(A, ca), (B, cb)], index 0
resolves to A and index 1 to B with no storage fetch — exactly how
`dexStableCurrencyExchange` resolves inIndex=0 / outIndex=1; and for any pool id
whose cached list does not reach the requested index, exactly one authoritative
storage fetch is performed, the cache is repopulated with the fetched membership,
and when the index is still out of range the lookup fails with the
index-out-of-range error. -/
theorem claim5_stable_pool_lookup :
    (∀ (senv : StableStorageEnv) (cache : PoolCache) (A B : Currency) (ca cb : CurrencyId),
      cacheGet cache 5 = some [(A, ca), (B, cb)] →
      ((getStablePoolCurrencyByIndex senv cache 5 0).result = .ok (A, ca) ∧
        (getStablePoolCurrencyByIndex senv cache 5 0).storageFetches = 0 ∧
        (getStablePoolCurrencyByIndex senv cache 5 1).result = .ok (B, cb) ∧
        (getStablePoolCurrencyByIndex senv cache 5 1).storageFetches = 0)) ∧
    (∀ (senv : StableStorageEnv) (cache : PoolCache) (poolId index : Nat)
        (cs : List (Currency × CurrencyId)) (pool : Pool) (ids : List CurrencyId),
      cacheGet cache poolId = some cs → cs.length ≤ index →
      senv.isExists = true → senv.isV1021000 = true →
      senv.pools poolId = some pool → poolCurrencyIdsOf pool = some ids →
      ids.length ≤ index →
      ((getStablePoolCurrencyByIndex senv cache poolId index).storageFetches = 1 ∧
        cacheGet (getStablePoolCurrencyByIndex senv cache poolId index).cache poolId =
          some (ids.map fun cid => (currencyIdEncode cid, cid)) ∧
        (getStablePoolCurrencyByIndex senv cache poolId index).result =
          .error ("getStablePoolCurrencyByIndex: Unable to find currency in DexStablePoolsStorage for given poolId [" ++ toString poolId ++ "] and currency index [" ++ toString index ++ "]"))) := by
  constructor
  · intro senv cache A B ca cb hcache
    refine ⟨?_, ?_, ?_, ?_⟩ <;> simp [getStablePoolCurrencyByIndex, hcache]
  · intro senv cache poolId index cs pool ids hcache hcs hex hv hpool hids hlen
    have hnotlt : ¬ index < cs.length := by omega
    have hnotlt2 : ¬ index < (ids.map fun cid => (currencyIdEncode cid, cid)).length := by
      rw [List.length_map]; omega
    simp only [getStablePoolCurrencyByIndex, hcache, dif_neg hnotlt, stableFetch, hex, hv,
      hpool, hids, dif_neg hnotlt2]
    refine ⟨by simp, ?_, by simp⟩
    simp [cacheGet, cacheSet, List.lookup]

/-- **C5** (witness): the lookup characterizations instantiated at the concrete
cached pool 5 = [DOT, IBTC], with index 1 answered from the cache and index 2
triggering one re-fetch of the base pool before failing. -/
theorem claim5_witness :
    ((getStablePoolCurrencyByIndex emptyStableStorage sampleStableCache 5 0).result =
        .ok (.NativeToken .DOT, .Token .DOT) ∧
      (getStablePoolCurrencyByIndex emptyStableStorage sampleStableCache 5 0).storageFetches = 0 ∧
      (getStablePoolCurrencyByIndex emptyStableStorage sampleStableCache 5 1).result =
        .ok (.NativeToken .IBTC, .Token .IBTC) ∧
      (getStablePoolCurrencyByIndex emptyStableStorage sampleStableCache 5 1).storageFetches = 0) ∧
    ((getStablePoolCurrencyByIndex sampleStableStorage sampleStableCache 5 2).storageFetches = 1 ∧
      cacheGet (getStablePoolCurrencyByIndex sampleStableStorage sampleStableCache 5 2).cache 5 =
        some ([CurrencyId.Token .DOT, CurrencyId.Token .IBTC].map
          fun cid => (currencyIdEncode cid, cid)) ∧
      (getStablePoolCurrencyByIndex sampleStableStorage sampleStableCache 5 2).result =
        .error ("getStablePoolCurrencyByIndex: Unable to find currency in DexStablePoolsStorage for given poolId [" ++ toString 5 ++ "] and currency index [" ++ toString 2 ++ "]")) :=
  ⟨claim5_stable_pool_lookup.1 emptyStableStorage sampleStableCache
      (.NativeToken .DOT) (.NativeToken .IBTC) (.Token .DOT) (.Token .IBTC) rfl,
    claim5_stable_pool_lookup.2 sampleStableStorage sampleStableCache 5 2
      [(.NativeToken .DOT, .Token .DOT), (.NativeToken .IBTC, .Token .IBTC)]
      (.Base [.Token .DOT, .Token .IBTC]) [.Token .DOT, .Token .IBTC]
      rfl (by decide) rfl rfl rfl rfl (by decide)⟩

/-- **C8** (counterexample): a stable-pool swap whose pool id is absent from
storage does not end in a logged skip — the handler call evaluates to a thrown
error, which propagates out of `dexStableCurrencyExchange`. -/
theorem claim8_counterexample :
    (dexStableCurrencyExchange sampleEnv emptyStableStorage [] sampleBlock
        { id := "evt-stable", specVersion := specV1021000 } sampleDexStablePayload).1 =
      .error "getStablePoolCurrencyByIndex: Unable to find stable pool in storage for given poolId [5]" := by
  rfl

/-- **C8** (amended): a market-activation event whose LoanMarket does not exist is
logged and skipped with no record and no exception, as claimed; but a stable-pool
fetch that finds no pool for the pool id raises an error that propagates out of
`dexStableCurrencyExchange` instead of being logged and skipped. -/
theorem claim8_amended_missing_state :
    (∀ (env : Env) (block : Block) (item : EventItem) (cid : CurrencyId),
      (item.specVersion = specV1020000 ∨ item.specVersion = specV1021000) →
      env.storeGetLoanMarket ("loanMarket_" ++ currencyToString (currencyIdEncode cid)) = none →
      activatedMarket env block item cid = .ok (.skipped .warn
        "WARNING: ActivatedMarket event did not match any existing LoanMarkets! Skipping.")) ∧
    (∀ (env : Env) (senv : StableStorageEnv) (cache : PoolCache) (block : Block)
        (item : EventItem) (p : DexStablePayload),
      item.specVersion = specV1021000 →
      cacheGet cache p.poolId = none →
      senv.isExists = true → senv.isV1021000 = true → senv.pools p.poolId = none →
      (dexStableCurrencyExchange env senv cache block item p).1 =
        .error ("getStablePoolCurrencyByIndex: Unable to find stable pool in storage for given poolId [" ++ toString p.poolId ++ "]")) := by
  constructor
  · intro env block item cid hv hstore
    simp only [activatedMarket, if_pos hv, hstore]
  · intro env senv cache block item p hv hcache hex hsv hpool
    unfold dexStableCurrencyExchange
    rw [if_pos hv]
    have hout : getStablePoolCurrencyByIndex senv cache p.poolId p.outIndex =
        { result := .error ("getStablePoolCurrencyByIndex: Unable to find stable pool in storage for given poolId [" ++ toString p.poolId ++ "]"),
          cache := cache, storageFetches := 1 } := by
      unfold getStablePoolCurrencyByIndex
      rw [hcache]
      unfold stableFetch
      rw [hex]
      simp only [Bool.true_eq_false, if_false, hsv, if_true, hpool]
    rw [hout]

/-- **C8** (witness): the amended statement instantiated concretely — an
activation event whose market is missing skips with the warning, and a stable
swap on the storage-absent pool 7 propagates the not-found error. -/
theorem claim8_witness :
    activatedMarket sampleEnv sampleBlock { id := "evt-act", specVersion := specV1020000 }
        (.Token .KSM) =
      .ok (.skipped .warn
        "WARNING: ActivatedMarket event did not match any existing LoanMarkets! Skipping.") ∧
    (dexStableCurrencyExchange sampleEnv emptyStableStorage [] sampleBlock
        { id := "evt-stable2", specVersion := specV1021000 }
        { poolId := 7, inIndex := 0, outIndex := 1, inAmount := 10, outAmount := 9,
          who := 3 }).1 =
      .error ("getStablePoolCurrencyByIndex: Unable to find stable pool in storage for given poolId [" ++ toString 7 ++ "]") :=
  ⟨claim8_amended_missing_state.1 sampleEnv sampleBlock
      { id := "evt-act", specVersion := specV1020000 } (.Token .KSM) (Or.inl rfl) rfl,
    claim8_amended_missing_state.2 sampleEnv emptyStableStorage [] sampleBlock
      { id := "evt-stable2", specVersion := specV1021000 }
      { poolId := 7, inIndex := 0, outIndex := 1, inAmount := 10, outAmount := 9, who := 3 }
      rfl rfl rfl rfl rfl⟩


/-- **C3** (counterexample): the interest-accrual handler raises on an event
tagged with a spec version it has no decoding rule for, instead of warning and
skipping — it decodes via the generated `asV1021000` accessor with no version
guard. -/
theorem claim3_counterexample :
    (accrueInterest sampleEnv [] sampleBlock { id := "evt-accrue", specVersion := 42 }
        sampleAccruedPayload).1 = .error assertionFailedMessage := by
  rfl

/-- **C3** (amended): every event handler that dispatches on the spec version
(the market, loan, collateral, deposit, repay, redeem and both dex-swap handlers)
yields no emitted record and a recorded warning on an unregistered version,
without raising; the interest-accrual handler instead decodes unconditionally as
v1021000 and raises on any other version; and the reward-distribution and
liquidation handlers emit nothing and log nothing for any version. -/
theorem claim3_amended_version_dispatch :
    (∀ (env : Env) (block : Block) (item : EventItem) (p : MarketPayload),
      item.specVersion ≠ specV1020000 → item.specVersion ≠ specV1021000 →
      newMarket env block item p =
        .ok (.skipped .warn "UNKOWN EVENT VERSION: LoansNewMarketEvent")) ∧
    (∀ (env : Env) (block : Block) (item : EventItem) (p : MarketPayload),
      item.specVersion ≠ specV1020000 → item.specVersion ≠ specV1021000 →
      updatedMarket env block item p =
        .ok (.skipped .warn "UNKOWN EVENT VERSION: LoansUpdatedMarketEvent")) ∧
    (∀ (env : Env) (block : Block) (item : EventItem) (cid : CurrencyId),
      item.specVersion ≠ specV1020000 → item.specVersion ≠ specV1021000 →
      activatedMarket env block item cid =
        .ok (.skipped .warn "UNKOWN EVENT VERSION: LoansActivatedMarketEvent")) ∧
    (∀ (env : Env) (block : Block) (item : EventItem) (p : LoanEventPayload),
      item.specVersion ≠ specV1020000 → item.specVersion ≠ specV1021000 →
      borrow env block item p =
        .ok (.skipped .warn "UNKOWN EVENT VERSION: LoansBorrowedEvent")) ∧
    (∀ (env : Env) (rates : List Rate) (block : Block) (item : EventItem)
        (p : LoanEventPayload),
      item.specVersion ≠ specV1020000 → item.specVersion ≠ specV1021000 →
      depositCollateral env rates block item p =
        .ok (.skipped .warn "UNKOWN EVENT VERSION: LoansDepositCollateralEvent")) ∧
    (∀ (env : Env) (rates : List Rate) (block : Block) (item : EventItem)
        (p : LoanEventPayload),
      item.specVersion ≠ specV1020000 → item.specVersion ≠ specV1021000 →
      withdrawCollateral env rates block item p =
        .ok (.skipped .warn "UNKOWN EVENT VERSION: LoansDepositCollateralEvent")) ∧
    (∀ (env : Env) (block : Block) (item : EventItem) (p : LoanEventPayload),
      item.specVersion ≠ specV1020000 → item.specVersion ≠ specV1021000 →
      depositForLending env block item p =
        .ok (.skipped .warn "UNKOWN EVENT VERSION: LoansDepositedEvent")) ∧
    (∀ (env : Env) (block : Block) (item : EventItem) (p : LoanEventPayload),
      item.specVersion ≠ specV1020000 → item.specVersion ≠ specV1021000 →
      repay env block item p =
        .ok (.skipped .warn "UNKOWN EVENT VERSION: LoansRepaidBorrowEvent")) ∧
    (∀ (env : Env) (block : Block) (item : EventItem) (p : LoanEventPayload),
      item.specVersion ≠ specV1020000 → item.specVersion ≠ specV1021000 →
      withdrawDeposit env block item p =
        .ok (.skipped .warn "UNKOWN EVENT VERSION: LoansRepaidBorrowEvent")) ∧
    (∀ (env : Env) (block : Block) (item : EventItem) (p : DexGeneralPayload),
      item.specVersion ≠ specV1021000 →
      dexGeneralAssetSwap env block item p =
        .ok (.skipped .warn "UNKOWN EVENT VERSION: DexGeneral.AssetSwap")) ∧
    (∀ (env : Env) (senv : StableStorageEnv) (cache : PoolCache) (block : Block)
        (item : EventItem) (p : DexStablePayload),
      item.specVersion ≠ specV1021000 →
      dexStableCurrencyExchange env senv cache block item p =
        (.ok (.skipped .warn "UNKOWN EVENT VERSION: DexStable.CurrencyExchange"), cache)) ∧
    (∀ (env : Env) (rates : List Rate) (block : Block) (item : EventItem)
        (p : InterestAccruedPayload),
      item.specVersion ≠ specV1021000 →
      accrueInterest env rates block item p = (.error assertionFailedMessage, rates)) ∧
    (∀ (env : Env) (block : Block) (item : EventItem),
      distributeBorrowerReward env block item = .ok (.processed [])) ∧
    (∀ (env : Env) (block : Block) (item : EventItem),
      distributeSupplierReward env block item = .ok (.processed [])) ∧
    (∀ (env : Env) (block : Block) (item : EventItem),
      liquidateLoan env block item = .ok (.processed [])) := by
  refine ⟨?_, ?_, ?_, ?_, ?_, ?_, ?_, ?_, ?_, ?_, ?_, ?_, ?_, ?_, ?_⟩
  · intro env block item p h1 h2; simp [newMarket, h1, h2]
  · intro env block item p h1 h2; simp [updatedMarket, h1, h2]
  · intro env block item cid h1 h2; simp [activatedMarket, h1, h2]
  · intro env block item p h1 h2; simp [borrow, h1, h2]
  · intro env rates block item p h1 h2; simp [depositCollateral, h1, h2]
  · intro env rates block item p h1 h2; simp [withdrawCollateral, h1, h2]
  · intro env block item p h1 h2; simp [depositForLending, h1, h2]
  · intro env block item p h1 h2; simp [repay, h1, h2]
  · intro env block item p h1 h2; simp [withdrawDeposit, h1, h2]
  · intro env block item p h1; simp [dexGeneralAssetSwap, h1]
  · intro env senv cache block item p h1; simp [dexStableCurrencyExchange, h1]
  · intro env rates block item p h1; simp [accrueInterest, h1]
  · intro env block item; rfl
  · intro env block item; rfl
  · intro env block item; rfl

/-- **C3** (witness): the amended dispatch behavior instantiated at the concrete
unregistered spec version 9999. -/
theorem claim3_witness :
    newMarket sampleEnv sampleBlock { id := "w1", specVersion := 9999 } sampleMarketPayload =
      .ok (.skipped .warn "UNKOWN EVENT VERSION: LoansNewMarketEvent") ∧
    updatedMarket sampleEnv sampleBlock { id := "w2", specVersion := 9999 } sampleMarketPayload =
      .ok (.skipped .warn "UNKOWN EVENT VERSION: LoansUpdatedMarketEvent") ∧
    activatedMarket sampleEnv sampleBlock { id := "w3", specVersion := 9999 } (.Token .DOT) =
      .ok (.skipped .warn "UNKOWN EVENT VERSION: LoansActivatedMarketEvent") ∧
    borrow sampleEnv sampleBlock { id := "w4", specVersion := 9999 } sampleLoanPayload =
      .ok (.skipped .warn "UNKOWN EVENT VERSION: LoansBorrowedEvent") ∧
    depositCollateral sampleEnv [] sampleBlock { id := "w5", specVersion := 9999 }
        sampleLoanPayload =
      .ok (.skipped .warn "UNKOWN EVENT VERSION: LoansDepositCollateralEvent") ∧
    withdrawCollateral sampleEnv [] sampleBlock { id := "w6", specVersion := 9999 }
        sampleLoanPayload =
      .ok (.skipped .warn "UNKOWN EVENT VERSION: LoansDepositCollateralEvent") ∧
    depositForLending sampleEnv sampleBlock { id := "w7", specVersion := 9999 }
        sampleLoanPayload =
      .ok (.skipped .warn "UNKOWN EVENT VERSION: LoansDepositedEvent") ∧
    repay sampleEnv sampleBlock { id := "w8", specVersion := 9999 } sampleLoanPayload =
      .ok (.skipped .warn "UNKOWN EVENT VERSION: LoansRepaidBorrowEvent") ∧
    withdrawDeposit sampleEnv sampleBlock { id := "w9", specVersion := 9999 }
        sampleLoanPayload =
      .ok (.skipped .warn "UNKOWN EVENT VERSION: LoansRepaidBorrowEvent") ∧
    dexGeneralAssetSwap sampleEnv sampleBlock { id := "w10", specVersion := 9999 }
        sampleDexGeneralPayload =
      .ok (.skipped .warn "UNKOWN EVENT VERSION: DexGeneral.AssetSwap") ∧
    dexStableCurrencyExchange sampleEnv emptyStableStorage [] sampleBlock
        { id := "w11", specVersion := 9999 } sampleDexStablePayload =
      (.ok (.skipped .warn "UNKOWN EVENT VERSION: DexStable.CurrencyExchange"), []) ∧
    accrueInterest sampleEnv [] sampleBlock { id := "w12", specVersion := 9999 }
        sampleAccruedPayload = (.error assertionFailedMessage, []) ∧
    distributeBorrowerReward sampleEnv sampleBlock { id := "w13", specVersion := 9999 } =
      .ok (.processed []) ∧
    distributeSupplierReward sampleEnv sampleBlock { id := "w14", specVersion := 9999 } =
      .ok (.processed []) ∧
    liquidateLoan sampleEnv sampleBlock { id := "w15", specVersion := 9999 } =
      .ok (.processed []) :=
  ⟨claim3_amended_version_dispatch.1 sampleEnv sampleBlock _ sampleMarketPayload
      (by decide) (by decide),
    claim3_amended_version_dispatch.2.1 sampleEnv sampleBlock _ sampleMarketPayload
      (by decide) (by decide),
    claim3_amended_version_dispatch.2.2.1 sampleEnv sampleBlock _ (.Token .DOT)
      (by decide) (by decide),
    claim3_amended_version_dispatch.2.2.2.1 sampleEnv sampleBlock _ sampleLoanPayload
      (by decide) (by decide),
    claim3_amended_version_dispatch.2.2.2.2.1 sampleEnv [] sampleBlock _ sampleLoanPayload
      (by decide) (by decide),
    claim3_amended_version_dispatch.2.2.2.2.2.1 sampleEnv [] sampleBlock _ sampleLoanPayload
      (by decide) (by decide),
    claim3_amended_version_dispatch.2.2.2.2.2.2.1 sampleEnv sampleBlock _ sampleLoanPayload
      (by decide) (by decide),
    claim3_amended_version_dispatch.2.2.2.2.2.2.2.1 sampleEnv sampleBlock _ sampleLoanPayload
      (by decide) (by decide),
    claim3_amended_version_dispatch.2.2.2.2.2.2.2.2.1 sampleEnv sampleBlock _
      sampleLoanPayload (by decide) (by decide),
    claim3_amended_version_dispatch.2.2.2.2.2.2.2.2.2.1 sampleEnv sampleBlock _
      sampleDexGeneralPayload (by decide),
    claim3_amended_version_dispatch.2.2.2.2.2.2.2.2.2.2.1 sampleEnv emptyStableStorage []
      sampleBlock _ sampleDexStablePayload (by decide),
    claim3_amended_version_dispatch.2.2.2.2.2.2.2.2.2.2.2.1 sampleEnv [] sampleBlock _
      sampleAccruedPayload (by decide),
    claim3_amended_version_dispatch.2.2.2.2.2.2.2.2.2.2.2.2.1 sampleEnv sampleBlock _,
    claim3_amended_version_dispatch.2.2.2.2.2.2.2.2.2.2.2.2.2.1 sampleEnv sampleBlock _,
    claim3_amended_version_dispatch.2.2.2.2.2.2.2.2.2.2.2.2.2.2 sampleEnv sampleBlock _⟩


theorem mkAmounts_all_pooled (l : List (Currency × Int))
    (h : ∀ x ∈ l, isPooledToken x.1 = true) :
    ∃ amounts, mkAmounts l = .ok amounts ∧ amounts.length = l.length := by
  induction l with
  | nil => exact ⟨[], rfl, rfl⟩
  | cons x rest ih =>
    obtain ⟨c, b⟩ := x
    have hx : isPooledToken c = true := h (c, b) (by simp)
    obtain ⟨amounts, hams, hlen⟩ := ih fun y hy => h y (by simp [hy])
    refine ⟨{ currency := c, atomicAmount := b } :: amounts, ?_, by simp [hlen]⟩
    simp [mkAmounts, hx, hams]

theorem createPairWiseSwapDetails_length :
    (l : List SwapDetailsAmount) → (createPairWiseSwapDetails l).length = l.length - 1
  | [] => by simp [createPairWiseSwapDetails]
  | [a] => by simp [createPairWiseSwapDetails]
  | a :: b :: rest => by
    have ih := createPairWiseSwapDetails_length (b :: rest)
    simp only [createPairWiseSwapDetails, List.length_cons] at ih ⊢
    omega

theorem map_dexVolume_names (l : List SwapDetails) (s : String) (oid : Option String) :
    (l.map fun _ => PushRec.dexVolume s oid).map pushEntityName =
      List.replicate l.length s := by
  induction l with
  | nil => rfl
  | cons a rest ih => simp [pushEntityName, ih, List.replicate]

/-- **C7** (counterexample): for a concrete two-leg standard swap the handler's
buffer-push trace is per-pool volume (twice), then global volume, per-account
volume, global trade count, per-account trade count — the global volume record is
pushed before the per-account volume record, contradicting the claimed fixed
order (per-pool, then per-account, then global). -/
theorem claim7_counterexample :
    dexGeneralAssetSwap sampleEnv sampleBlock { id := "evt-swap", specVersion := specV1021000 }
        sampleDexGeneralPayload =
      .ok (.processed
        [.dexVolume "CumulativeDexTradingVolumePerPool" none,
          .dexVolume "CumulativeDexTradingVolumePerPool" none,
          .dexVolume "CumulativeDexTradingVolume" none,
          .dexVolume "CumulativeDexTradingVolumePerAccount" none,
          .dexVolume "CumulativeDexTradeCount" none,
          .dexVolume "CumulativeDexTradeCountPerAccount" none]) ∧
    ["CumulativeDexTradingVolumePerPool", "CumulativeDexTradingVolumePerPool",
        "CumulativeDexTradingVolume", "CumulativeDexTradingVolumePerAccount",
        "CumulativeDexTradeCount", "CumulativeDexTradeCountPerAccount"].indexOf
      "CumulativeDexTradingVolume" <
    ["CumulativeDexTradingVolumePerPool", "CumulativeDexTradingVolumePerPool",
        "CumulativeDexTradingVolume", "CumulativeDexTradingVolumePerAccount",
        "CumulativeDexTradeCount", "CumulativeDexTradeCountPerAccount"].indexOf
      "CumulativeDexTradingVolumePerAccount" := by
  exact ⟨by rfl, by decide⟩

/-- **C7** (amended): for the standard-pool handler, per-pool volume records are
pushed first, one per leg of the swap path in order, and the account-level and
global aggregates are then computed concurrently and their records pushed in the
fixed order global volume, per-account volume, global trade count, per-account
trade count; the stable-pool handler applies no aggregate update at all — it
passes the whole resolved `[Currency, CurrencyId]` pairs to the pooled-token
guard, which fails for every pair, so after any successful resolution it logs the
currencyIn type error and skips without pushing a single record. -/
theorem claim7_amended_update_order :
    (∀ (env : Env) (block : Block) (item : EventItem) (p : DexGeneralPayload),
      item.specVersion = specV1021000 →
      (∀ c ∈ p.swapPath.map currencyIdEncode, isPooledToken c = true) →
      p.swapPath.length = p.balances.length →
      ∃ pushes, dexGeneralAssetSwap env block item p = .ok (.processed pushes) ∧
        pushes.map pushEntityName =
          List.replicate (p.swapPath.length - 1) "CumulativeDexTradingVolumePerPool" ++
            ["CumulativeDexTradingVolume", "CumulativeDexTradingVolumePerAccount",
              "CumulativeDexTradeCount", "CumulativeDexTradeCountPerAccount"]) ∧
    (∀ (env : Env) (senv : StableStorageEnv) (cache : PoolCache) (block : Block)
        (item : EventItem) (p : DexStablePayload) (outPair inPair : Currency × CurrencyId),
      item.specVersion = specV1021000 →
      (getStablePoolCurrencyByIndex senv cache p.poolId p.outIndex).result = .ok outPair →
      (getStablePoolCurrencyByIndex senv
          (getStablePoolCurrencyByIndex senv cache p.poolId p.outIndex).cache
          p.poolId p.inIndex).result = .ok inPair →
      (dexStableCurrencyExchange env senv cache block item p).1 =
        .ok (.skipped .error
          "Unexpected currencyIn type undefined, skip processing of DexGeneralAssetSwapEvent")) := by
  constructor
  · intro env block item p h1 hp hlen
    have hfind : (p.swapPath.map currencyIdEncode).find? (fun c => !(isPooledToken c)) =
        none := by
      rw [List.find?_eq_none]
      intro c hc
      simp [hp c hc]
    have hlen2 : (p.swapPath.map currencyIdEncode).length = p.balances.length := by
      simp [hlen]
    have hzip : ∀ x ∈ (p.swapPath.map currencyIdEncode).zip p.balances,
        isPooledToken x.1 = true := by
      intro x hx
      obtain ⟨c, b⟩ := x
      exact hp c (List.of_mem_zip hx).1
    obtain ⟨amounts, hams, hamlen⟩ :=
      mkAmounts_all_pooled ((p.swapPath.map currencyIdEncode).zip p.balances) hzip
    simp only [dexGeneralAssetSwap, if_pos h1, hfind, createSwapDetailsAmounts, hlen2,
      ne_eq, not_true_eq_false, if_false, hams]
    refine ⟨_, rfl, ?_⟩
    rw [List.map_append, map_dexVolume_names, createPairWiseSwapDetails_length, hamlen,
      List.length_zip, List.length_map, hlen, Nat.min_self]
    rfl
  · intro env senv cache block item p outPair inPair h1 hout hin
    simp only [dexStableCurrencyExchange, if_pos h1, hout, hin, isPooledTokenOnPair,
      pairIsTypeOf, Bool.not_false, if_true]
    rfl

/-- **C7** (witness): the amended behavior instantiated at a concrete three-hop
standard swap and a concrete stable swap on the cached pool 5, whose resolutions
succeed but whose pooled-token guard fails on the undestructured pairs. -/
theorem claim7_witness :
    (∃ pushes, dexGeneralAssetSwap sampleEnv sampleBlock
          { id := "w-c7a", specVersion := specV1021000 } sampleDexGeneralPayload =
        .ok (.processed pushes) ∧
      pushes.map pushEntityName =
        List.replicate (sampleDexGeneralPayload.swapPath.length - 1)
            "CumulativeDexTradingVolumePerPool" ++
          ["CumulativeDexTradingVolume", "CumulativeDexTradingVolumePerAccount",
            "CumulativeDexTradeCount", "CumulativeDexTradeCountPerAccount"]) ∧
    (dexStableCurrencyExchange sampleEnv emptyStableStorage sampleStableCache
        sampleBlock { id := "w-c7b", specVersion := specV1021000 }
        sampleDexStablePayload).1 =
      .ok (.skipped .error
        "Unexpected currencyIn type undefined, skip processing of DexGeneralAssetSwapEvent") :=
  ⟨claim7_amended_update_order.1 sampleEnv sampleBlock
      { id := "w-c7a", specVersion := specV1021000 } sampleDexGeneralPayload
      rfl (by decide) rfl,
    claim7_amended_update_order.2 sampleEnv emptyStableStorage sampleStableCache
      sampleBlock { id := "w-c7b", specVersion := specV1021000 } sampleDexStablePayload
      (.NativeToken .IBTC, .Token .IBTC) (.NativeToken .DOT, .Token .DOT)
      rfl (by rfl) (by rfl)⟩


end Interbtc
